import Mathlib

/-!
Verification of the hierarchical period (dasha) resolver of the
Vedic-astro-engine repository (`src/app.py`).

Time is modelled as exact rational numbers of days since an arbitrary
epoch; the source's `timedelta(days = years * 365.25)` arithmetic is the
exact rational `years * (1461/4)`.  The wall-clock instant that the source
reads with `datetime.now()` at the top of `generate_current_next_bhukti`
is passed in as the explicit parameter `now`, so that the dependency of
the output on that instant is visible in the model.  Python `float`
arithmetic is modelled by exact rational arithmetic; the magnitude of the
discrepancies examined below (whole years) is far beyond any
floating-point rounding effect.

The calendar rendering of the source (`strftime`, `date.year`) is
presentation only; intervals are kept as rational day offsets.
-/

/-- One year in days, the fixed constant `365.25` used throughout the source. -/
def yearDays : ℚ := 1461 / 4

/-- The literal `13.333333333` used by the source as the nakshatra span
(`app.py` lines 490-491 and 568-569). -/
def nakSpan : ℚ := 13333333333 / 1000000000

/-- Python float modulus `x % c` for positive `c`: `x - c * floor (x / c)`. -/
def qmod (x c : ℚ) : ℚ := x - c * ⌊x / c⌋

/-- Modelled from the spec: the 9-unit cyclic sequence `DASHA_ORDER` is imported
by `app.py` from `database.py`, which is not part of the source tree; the spec's
concrete scenario fixes a 9-unit cyclic order whose weights are
`7, 20, 6, 10, 7, 18, 16, 19, 17` (summing to 120), which is the classical
Vimshottari order of the nine lords used everywhere in `app.py`. -/
def DASHA_ORDER : List String :=
  ["Ketu", "Venus", "Sun", "Moon", "Mars", "Rahu", "Jupiter", "Saturn", "Mercury"]

/-- Modelled from the spec: the weight table `DASHA_YEARS` is imported by
`app.py` from `database.py`, which is not part of the source tree; the spec
fixes the weights `7, 20, 6, 10, 7, 18, 16, 19, 17` for the nine units in
cyclic order, summing to exactly 120. -/
def DASHA_YEARS (p : String) : ℚ :=
  if p = "Ketu" then 7
  else if p = "Venus" then 20
  else if p = "Sun" then 6
  else if p = "Moon" then 10
  else if p = "Mars" then 7
  else if p = "Rahu" then 18
  else if p = "Jupiter" then 16
  else if p = "Saturn" then 19
  else if p = "Mercury" then 17
  else 0

/-- The source expression `DASHA_ORDER[k % 9]` for an integer index `k`. -/
def ordAt (k : Int) : String := DASHA_ORDER.getD (k.emod 9).toNat ""

/-- The Tamil planet-name table `t_p` (`app.py` line 26). -/
def t_p : List (String × String) :=
  [("Sun", "சூரியன்"), ("Moon", "சந்திரன்"), ("Mars", "செவ்வாய்"),
   ("Mercury", "புதன்"), ("Jupiter", "குரு"), ("Venus", "சுக்கிரன்"),
   ("Saturn", "சனி"), ("Rahu", "ராகு"), ("Ketu", "கேது")]

/-- The source expression `t_p.get(p, p) if lang == "Tamil" else p`. -/
def trName (lang p : String) : String :=
  if lang = "Tamil" then (t_p.lookup p).getD p else p

/-- The source's `int(moon_lon / 13.333333333)` (`app.py` lines 490, 568);
the longitudes of interest are nonnegative, where `int` truncation is `floor`. -/
def nakIdx (moon_lon : ℚ) : Int := ⌊moon_lon / nakSpan⌋

/-- The source's `bal = 1 - ((moon_lon % 13.333333333) / 13.333333333)`
(`app.py` lines 491, 569). -/
def balance (moon_lon : ℚ) : ℚ := 1 - qmod moon_lon nakSpan / nakSpan

/-- The English house-topic dictionary `topics` of
`get_detailed_bhukti_analysis` (`app.py` line 553); a house key outside
`1..12` has no entry, which in the source raises `KeyError`. -/
def topicsEn (h : Int) : Option String :=
  if h = 1 then some "personal identity, physical vitality, and major life directions"
  else if h = 2 then some "wealth accumulation, family dynamics, and financial planning"
  else if h = 3 then some "courage, self-effort, short travels, and communication"
  else if h = 4 then some "domestic peace, real estate, mother, and inner emotional foundations"
  else if h = 5 then some "creativity, children, speculative investments, and intellect"
  else if h = 6 then some "health routines, resolving debts, and overcoming competitors"
  else if h = 7 then some "marriage, business partnerships, and public dealings"
  else if h = 8 then some "deep transformation, hidden knowledge, unexpected events, and shared finances"
  else if h = 9 then some "luck, higher learning, long-distance travel, and mentorship"
  else if h = 10 then some "career advancement, public status, and professional authority"
  else if h = 11 then some "network expansion, large gains, and the fulfillment of long-term desires"
  else if h = 12 then some "spiritual retreats, foreign connections, high expenditures, and letting go"
  else none

/-- The Tamil house-topic dictionary `t_topics` of
`get_detailed_bhukti_analysis` (`app.py` line 537). -/
def topicsTa (h : Int) : Option String :=
  if h = 1 then some "சுய அடையாளம், உடல் ஆரோக்கியம் மற்றும் புதிய தொடக்கங்கள்"
  else if h = 2 then some "செல்வம், குடும்பம் மற்றும் வருமானப் பெருக்கம்"
  else if h = 3 then some "தைரியம், குறுகிய பயணங்கள் மற்றும் தகவல் தொடர்பு"
  else if h = 4 then some "வீடு, வாகனம், தாயார் மற்றும் மன அமைதி"
  else if h = 5 then some "குழந்தைகள், கலை, மற்றும் புத்திசாலித்தனம்"
  else if h = 6 then some "ஆரோக்கியம், கடன் தீர்வு மற்றும் எதிரிகளை வெல்லுதல்"
  else if h = 7 then some "திருமணம், கூட்டாண்மை மற்றும் சமுதாய உறவுகள்"
  else if h = 8 then some "திடீர் மாற்றங்கள், ரகசியங்கள் மற்றும் ஆழமான தேடல்"
  else if h = 9 then some "பாக்கியம், தந்தை, உயர் கல்வி மற்றும் ஆன்மீகம்"
  else if h = 10 then some "தொழில் வெற்றி, பதவி உயர்வு மற்றும் சமூக அந்தஸ்து"
  else if h = 11 then some "லாபம், நெட்வொர்க் மற்றும் ஆசைகள் நிறைவேறுதல்"
  else if h = 12 then some "பயணங்கள், முதலீடுகள், செலவுகள் மற்றும் ஆன்மீக தேடல்"
  else none

/-- A dictionary lookup `d[k]` that raises `KeyError` when the key is absent. -/
def keyGet (d : Int → Option String) (h : Int) : Except String String :=
  match d h with
  | some s => Except.ok s
  | none => Except.error ("KeyError: " ++ toString h)

/-- Modelled from the spec: the per-planet lifestyle guidance table
`lifestyle_guidance` is imported by `app.py` from `database.py`, which is not
part of the source tree.  Every access to it in the resolver path uses
defaulting `.get` calls, so its contents never influence control flow; it is
modelled as an association list from planet to (deity, action). -/
def lifestyle_guidance : List (String × String × String) := []

/-- Modelled from the spec: the Tamil lifestyle table `TAMIL_LIFESTYLE` is
imported by `app.py` from `tamil_lang.py`, which is not part of the source
tree; as with `lifestyle_guidance`, every access defaults. -/
def TAMIL_LIFESTYLE : List (String × String × String) := []

/-- Python `s.split(',')[0]`. -/
def firstSegment (s : String) : String := (s.splitOn ",").getD 0 s

/-- The embedding of `get_detailed_bhukti_analysis` (`app.py` lines 530-564).
The only fallible operations are the `topics[...]` / `t_topics[...]`
dictionary subscripts, which raise `KeyError` when the house number drawn
from `planet_bhava_map` is outside `1..12`; all other lookups default. -/
def get_detailed_bhukti_analysis (md ad : String) (planet_bhava_map : List (String × Int))
    (lang : String) : Except String String :=
  let md_house : Int := (planet_bhava_map.lookup md).getD 1
  let ad_house : Int := (planet_bhava_map.lookup ad).getD 1
  if lang = "Tamil" then do
    let remedy_deity := ((TAMIL_LIFESTYLE.lookup ad).map Prod.fst).getD "உங்கள் இஷ்ட தெய்வம்"
    let remedy_action := ((TAMIL_LIFESTYLE.lookup ad).map (fun q => q.2)).getD "தர்ம காரியங்கள்"
    let t_md := (t_p.lookup md).getD md
    let t_ad := (t_p.lookup ad).getD ad
    let base := "இந்த காலகட்டம் " ++ t_md ++ " தசையின் (நீண்டகால இலக்கு) ஒட்டுமொத்த நோக்கங்களை, "
      ++ t_ad ++ " புக்தியின் (உடனடி செயல்கள்) மூலமாக நிஜ வாழ்க்கையில் பிரதிபலிக்கும்.\n\n"
    let base ← (if md = ad then do
        let tp ← keyGet topicsTa md_house
        pure (base ++ "உங்கள் ஜாதகத்தில் " ++ t_md ++ " " ++ toString md_house
          ++ "-ஆம் வீட்டில் அமர்ந்துள்ளதால், இந்த காலகட்டம் முற்றிலும் \x27" ++ tp
          ++ "\x27 என்பதை சுற்றியே அமையும். இது ஒரு தசா சந்தி (அதிகபட்ச தாக்கம்) என்பதால் இதன் சக்தி வீரியமாக இருக்கும்.\n\n")
      else do
        let tp ← keyGet topicsTa ad_house
        pure (base ++ "உங்கள் ஜாதகத்தில் " ++ t_md ++ " " ++ toString md_house
          ++ "-ஆம் வீட்டில் அமர்ந்துள்ளதால் நீண்டகால இலக்குகள் அதைச் சார்ந்திருக்கும். ஆனால் தற்போது "
          ++ t_ad ++ " புக்தி நடப்பதால், உங்கள் அன்றாட நிகழ்வுகள் மற்றும் பலன்கள் நேரடியாக \x27" ++ tp
          ++ "\x27 வழியே நடைபெறும்.\n\n"))
    let base := base ++ "முக்கிய கணிப்புகள்:\n"
    let tp2 ← keyGet topicsTa ad_house
    let base := base ++ "- உங்களின் முழு கவனமும் \x27" ++ firstSegment tp2 ++ "\x27 மீது திரும்பும்.\n"
    let base := base ++ (if ad ∈ ["Saturn", "Mars", "Rahu", "Ketu", "Sun"] then
        "எச்சரிக்கை: இது இயற்கையாகவே சற்று தீவிரமான கிரகத்தின் காலம் என்பதால், கோபத்தையும் அவசர முடிவுகளையும் கட்டாயம் தவிர்க்க வேண்டும். ஆவணங்களில் கையெழுத்திடும் முன் கவனமாகப் படிக்கவும்.\n"
      else
        "எச்சரிக்கை: இது ஒரு சாதகமான காலம் என்றாலும், சோம்பேறித்தனத்தை தவிர்த்து தொடர்ந்து உழைப்பது அவசியம். உங்கள் தினசரி கட்டுப்பாடுகளைத் தளர்த்த வேண்டாம்.\n")
    pure (base ++ "பரிகாரம்: இந்தக் காலத்தை சிறப்பாக்க " ++ remedy_action.toLower
      ++ " செய்யவும். மேலும், தினசரி " ++ remedy_deity ++ " ஐ மனதார வழிபடவும்.")
  else do
    let remedy_deity := ((lifestyle_guidance.lookup ad).map Prod.fst).getD "your personal deity"
    let remedy_action := ((lifestyle_guidance.lookup ad).map (fun q => q.2)).getD "charitable acts"
    let base := "This phase brings the overarching agenda of " ++ md
      ++ " (Strategy) into physical reality through the specific execution of " ++ ad ++ " (Tactics).\n\n"
    let base ← (if md = ad then do
        let tp ← keyGet topicsEn md_house
        pure (base ++ "Because " ++ md ++ " is placed in your " ++ toString md_house
          ++ "th House, this period is intensely, heavily focused. The absolute center of your life right now revolves around "
          ++ tp ++ ". This is a \x27Dasha Sandhi\x27 (peak intensification) where the planetary energy is completely undiluted.\n\n")
      else do
        let tpm ← keyGet topicsEn md_house
        let tpa ← keyGet topicsEn ad_house
        pure (base ++ "In your specific chart, " ++ md ++ " sits in the " ++ toString md_house
          ++ "th House, making your long-term, background focus center on " ++ tpm ++ ". However, " ++ ad
          ++ " is currently activating your " ++ toString ad_house
          ++ "th House. This means your immediate, day-to-day events, actions, and results will manifest specifically through "
          ++ tpa ++ ".\n\n"))
    let base := base ++ "Key Predictions:\n"
    let tp2 ← keyGet topicsEn ad_house
    let base := base ++ "- Core focus shifts heavily toward " ++ firstSegment tp2 ++ ".\n"
    let base := base ++ (if ad ∈ ["Saturn", "Mars", "Rahu", "Ketu", "Sun"] then
        "Precautions: This sub-period is ruled by a naturally intense, aggressive planet. You must actively avoid impulsive decisions, practice extreme patience, and do not force outcomes prematurely. Verify all legal documents carefully.\n"
      else
        "Precautions: While this is a generally supportive and gentle energy, do not become intellectually or physically complacent. Avoid over-indulgence and heavily maintain your daily discipline.\n")
    pure (base ++ "Actionable Pariharam: To optimize this specific " ++ ad
      ++ " period, focus heavily on " ++ remedy_action.toLower
      ++ ". Regularly worship or silently meditate upon " ++ remedy_deity ++ ".")

/-- The data located by the three nested search loops of
`generate_current_next_bhukti` (`app.py` lines 573-593): the active
major/sub/sub-sub lords together with the loop counters, the durations in
years, and the interval bounds in days. -/
structure FoundPeriods where
  mdLord : String
  mdDur : ℚ
  mdStart : ℚ
  mdEnd : ℚ
  adIdx : Int
  adPos : Nat
  adLord : String
  adDur : ℚ
  adStart : ℚ
  adEnd : ℚ
  pdPos : Nat
  pdLord : String
  pdDur : ℚ
  pdStart : ℚ
  pdEnd : ℚ
deriving DecidableEq

/-- The innermost (pratyantardasha) loop of `generate_current_next_bhukti`
(`app.py` lines 589-593): walk at most `fuel` sub-sub intervals from
`pd_start` (loop counter `j`), returning the first whose closed interval
contains `now`.  The source's `for j in range(9)` is the call with `j = 0`,
`fuel = 9`. -/
def pdLoop (now ad_dur : ℚ) (pd_idx : Int) : Nat → Nat → ℚ → Option (Nat × String × ℚ × ℚ × ℚ)
  | _, 0, _ => none
  | j, fuel + 1, pd_start =>
    let pd_lord := ordAt (pd_idx + (j : Int))
    let pd_dur := ad_dur * DASHA_YEARS pd_lord / 120
    let pd_end := pd_start + pd_dur * yearDays
    if pd_start ≤ now ∧ now ≤ pd_end then some (j, pd_lord, pd_dur, pd_start, pd_end)
    else pdLoop now ad_dur pd_idx (j + 1) fuel pd_end

/-- The middle (bhukti) loop of `generate_current_next_bhukti`
(`app.py` lines 581-593): walk at most `fuel` sub intervals from `ad_start`
(loop counter `i`); on a hit, run the innermost loop, and when that loop
finds nothing fall through to the next sub interval exactly as the source
does.  Sub durations use the full `DASHA_YEARS[md_lord]` weight
(line 583), not the possibly truncated actual major duration. -/
def adLoop (now : ℚ) (md_lord : String) (md_dur md_start md_end : ℚ) (ad_idx : Int) :
    Nat → Nat → ℚ → Option FoundPeriods
  | _, 0, _ => none
  | i, fuel + 1, ad_start =>
    let ad_lord := ordAt (ad_idx + (i : Int))
    let ad_dur := DASHA_YEARS md_lord * DASHA_YEARS ad_lord / 120
    let ad_end := ad_start + ad_dur * yearDays
    match (if ad_start ≤ now ∧ now ≤ ad_end then
        pdLoop now ad_dur ((DASHA_ORDER.indexOf ad_lord : Nat) : Int) 0 9 ad_start
      else none) with
    | some (j, pd_lord, pd_dur, pd_start, pd_end) =>
        some ⟨md_lord, md_dur, md_start, md_end, ad_idx, i, ad_lord, ad_dur, ad_start, ad_end,
              j, pd_lord, pd_dur, pd_start, pd_end⟩
    | none => adLoop now md_lord md_dur md_start md_end ad_idx (i + 1) fuel ad_end

/-- The outer (mahadasha) loop of `generate_current_next_bhukti`
(`app.py` lines 573-612): at most `fuel` top-level iterations from
`curr` with cyclic index `md_idx`; the major duration is truncated by
`bal` exactly when `curr == birth` (line 575), and after each iteration
`curr` advances to `md_end`, the index increments and `bal` is reset
to 1 (lines 610-612).  The source's `for _ in range(20)` is the call
with `fuel = 20`. -/
def mdLoop (birth now : ℚ) : Nat → ℚ → Int → ℚ → Option FoundPeriods
  | 0, _, _, _ => none
  | fuel + 1, curr, md_idx, bal =>
    let md_lord := ordAt md_idx
    let md_dur := if curr = birth then DASHA_YEARS md_lord * bal else DASHA_YEARS md_lord
    let md_end := curr + md_dur * yearDays
    match (if curr ≤ now ∧ now ≤ md_end then
        adLoop now md_lord md_dur curr md_end ((DASHA_ORDER.indexOf md_lord : Nat) : Int) 0 9 curr
      else none) with
    | some f => some f
    | none => mdLoop birth now fuel md_end (md_idx + 1) 1

/-- The period search of `generate_current_next_bhukti` on explicit inputs:
`now` is the value the source reads with `datetime.now()` at entry
(`app.py` line 567). -/
def mdLoopOf (moon_lon birth now : ℚ) : Option FoundPeriods :=
  mdLoop birth now 20 birth ((nakIdx moon_lon).emod 9) (balance moon_lon)

/-- The `Dates` field of a phase record: either a rendered interval
(`strftime` presentation of two instants) or a literal label. -/
inductive PhaseDates where
  | span (a b : ℚ)
  | label (s : String)
deriving DecidableEq

/-- A phase record as assembled at `app.py` lines 601-605. -/
structure Phase where
  ptype : String
  phase : String
  dates : PhaseDates
  text : String
deriving DecidableEq

/-- The `active_pd` record assembled at `app.py` line 596; the two
timestamps are kept as day offsets (`strftime` is presentation only). -/
structure ActivePd where
  md : String
  ad : String
  pd : String
  startDay : ℚ
  endDay : ℚ
deriving DecidableEq

/-- The embedding of `generate_current_next_bhukti` (`app.py` lines 566-612).
`Except.error` models an uncaught Python exception (a `KeyError` escaping
from `get_detailed_bhukti_analysis`); `Except.ok none` models the implicit
`None` returned when the 20-iteration search finds no bracketing period;
`Except.ok (some ...)` models the normal `return [p1, p2], active_pd`. -/
def generate_current_next_bhukti (moon_lon birth now : ℚ)
    (planet_bhava_map : List (String × Int)) (lang : String) :
    Except String (Option (List Phase × ActivePd)) :=
  match mdLoopOf moon_lon birth now with
  | none => Except.ok none
  | some f => do
    let t_md := trName lang f.mdLord
    let t_ad := trName lang f.adLord
    let t_pd := trName lang f.pdLord
    let active_pd : ActivePd := ⟨t_md, t_ad, t_pd, f.pdStart, f.pdEnd⟩
    let lbl_curr := if lang = "Tamil" then "நடப்பு புக்தி" else "CURRENT PHASE"
    let lbl_next := if lang = "Tamil" then "அடுத்த புக்தி" else "NEXT PHASE"
    let txt1 ← get_detailed_bhukti_analysis f.mdLord f.adLord planet_bhava_map lang
    let p1 : Phase := ⟨lbl_curr, t_md ++ " - " ++ t_ad, PhaseDates.span f.adStart f.adEnd, txt1⟩
    let next_ad := ordAt (f.adIdx + (f.adPos : Int) + 1)
    let t_next_ad := trName lang next_ad
    let txt2 ← get_detailed_bhukti_analysis f.mdLord next_ad planet_bhava_map lang
    let p2 : Phase := ⟨lbl_next, t_md ++ " - " ++ t_next_ad,
        PhaseDates.label (if lang = "Tamil" then "விரைவில்..." else "Upcoming"), txt2⟩
    Except.ok (some ([p1, p2], active_pd))

/-- The Tamil prediction dictionary `preds` of `generate_mahadasha_table`
(`app.py` lines 497-507); absent keys default to the empty string via
`preds.get(lord, "")`. -/
def predsTamil (p : String) : String :=
  if p = "Ketu" then "பற்றுதலின்மை, சுயபரிசோதனை மற்றும் ஆன்மீக வளர்ச்சியின் காலம். மேலோட்டமான ஆசைகளில் இருந்து விலகி இருப்பீர்கள். உங்களை சரியான பாதையில் திருப்புவதற்காக சில திடீர் மாற்றங்கள் நிகழலாம்."
  else if p = "Venus" then "பொருளாதார வசதிகள், ஆடம்பரம் மற்றும் உறவுகளில் அதிக கவனம் செலுத்தும் காலம். கலை, வாகனங்கள் மற்றும் சொத்துகள் வாங்கும் யோகம் உண்டு. திருமண வாழ்க்கை சிறப்பாக இருக்கும்."
  else if p = "Sun" then "ஆளுமைத் திறன் மற்றும் அதிகார உச்சத்தின் காலம். சமுதாயத்தில் மிகப்பெரிய மதிப்பும், தலைமைப் பொறுப்பும் தேடி வரும். உங்களின் சுயமரியாதை ஓங்கி நிற்கும்."
  else if p = "Moon" then "உணர்ச்சிப்பூர்வமான பயணங்கள் மற்றும் மக்கள் தொடர்புகள் அதிகரிக்கும் காலம். குடும்பம் மற்றும் தாயார் மீது அதீத பாசம் ஏற்படும். நீர் சார்ந்த தொழில்கள் கை கொடுக்கும்."
  else if p = "Mars" then "கட்டுக்கடங்காத ஆற்றலும், துணிச்சலும் நிறைந்த காலம். எதிரிகளை வீழ்த்துவீர்கள். நிலம் வாங்குவதற்கும், தொழில்நுட்பத் துறையில் சாதிப்பதற்கும் மிகவும் உகந்த நேரம்."
  else if p = "Rahu" then "எப்படியாவது வெற்றி பெற வேண்டும் என்ற தீராத லட்சியம் தோன்றும் காலம். எதிர்பாராத திடீர் உயர்வுகள் ஏற்படும். வெளிநாட்டு பயணங்கள் மற்றும் தொடர்புகளால் பெரும் லாபம் உண்டு."
  else if p = "Jupiter" then "ஆழ்ந்த ஞானம், தெய்வீக அருள் மற்றும் பொருளாதார வளர்ச்சியின் காலம். சமூகத்தில் நல்ல மதிப்பும் மரியாதையும் கூடும். குடும்பம் செழிக்கும், செல்வம் பெருகும்."
  else if p = "Saturn" then "கடும் உழைப்பு, யதார்த்தமான சிந்தனை மற்றும் ஆழமான பாடங்களைக் கற்கும் காலம். மெதுவாக இருந்தாலும் உங்கள் வளர்ச்சி மிகவும் உறுதியானதாக இருக்கும்."
  else if p = "Mercury" then "கூர்மையான புத்திசாலித்தனம், வணிகம் மற்றும் வேகமான தகவல் தொடர்பின் காலம். வியாபாரம் தழைக்கும். புதிய விஷயங்களை மிக விரைவாகக் கற்றுக்கொண்டு சாதிப்பீர்கள்."
  else ""

/-- The English prediction dictionary `preds` of `generate_mahadasha_table`
(`app.py` lines 509-519). -/
def predsEnglish (p : String) : String :=
  if p = "Ketu" then "A period of detachment, introspection, and spiritual growth. You may feel cut off from superficial material ambitions. Sudden breaks in career or relationships are highly possible, engineered specifically to redirect you towards your true path."
  else if p = "Venus" then "A period of material comfort, luxury, and heavy relationship focus. You will actively seek harmony and aesthetic pleasure. Significant career growth comes through networking, arts, or female figures."
  else if p = "Sun" then "A period of absolute authority, power, and identity formation. You actively seek recognition and leadership roles. Relations with the father or government entities become highly significant."
  else if p = "Moon" then "A period of emotional fluctuation, geographical travel, and deep public interaction. Your internal focus shifts to the home and mother figures. You gain significantly through public service or liquid industries."
  else if p = "Mars" then "A period of high energy, directed aggression, and technical achievement. You will aggressively conquer rivals and obstacles. This is an excellent period for engineering, sports, or acquiring real estate."
  else if p = "Rahu" then "A period of intense obsession, high ambition, and breaking traditional norms. You crave success at any absolute cost. Unexpected, sudden rises and falls will occur. Foreign travel or dealings with foreign cultures are highly favorable."
  else if p = "Jupiter" then "A period of deep wisdom, structural expansion, and divine grace. You gain immense respect through knowledge, teaching, or consulting. Wealth accumulates organically and steadily. Your family expands."
  else if p = "Saturn" then "A period of iron discipline, hard work, and profound reality checks. Growth is highly mathematically steady but slow. You will face heavy responsibilities. You learn deep patience and endurance."
  else if p = "Mercury" then "A period of sharp intellect, commerce, and rapid communication. The speed of life increases significantly. You learn new technical skills rapidly. Business and trade flourish. Meticulous networking brings immediate financial gains."
  else ""

/-- Python `timedelta.days` of a rational day span: the floor. -/
def tdDays (d : ℚ) : Int := ⌊d⌋

/-- The source's `int((b - a).days / 365.25)` age rendering
(`app.py` lines 521, 526); the spans involved are nonnegative, where `int`
truncation is `floor`. -/
def ageYears (d : ℚ) : Int := ⌊(tdDays d : ℚ) / yearDays⌋

/-- One row of the mahadasha timeline (`app.py` lines 521, 526).  The
`Years` field of the source renders calendar years of the two endpoints;
that calendar rendering is presentation only and the endpoints are kept as
day offsets. -/
structure DashaRow where
  lord : String
  startDay : ℚ
  endDay : ℚ
  ageFrom : Int
  ageTo : Int
  prediction : String
deriving DecidableEq

/-- The `for i in range(1, 9)` loop of `generate_mahadasha_table`
(`app.py` lines 523-527): `cnt` further full-length rows from `curr`,
with cyclic position `i`. -/
def mdRows (lang : String) (nak_idx : Int) (birth : ℚ) : Nat → Nat → ℚ → List DashaRow
  | _, 0, _ => []
  | i, cnt + 1, curr =>
    let lord := ordAt (nak_idx + (i : Int))
    let endDay := curr + DASHA_YEARS lord * yearDays
    ⟨trName lang lord, curr, endDay, ageYears (curr - birth), ageYears (endDay - birth),
      (if lang = "Tamil" then predsTamil else predsEnglish) lord⟩
      :: mdRows lang nak_idx birth (i + 1) cnt endDay

/-- The embedding of `generate_mahadasha_table` (`app.py` lines 489-528):
the first row is truncated by the balance factor, the remaining eight carry
full weights. -/
def generate_mahadasha_table (moon_lon birth : ℚ) (lang : String) : List DashaRow :=
  let nak_idx := nakIdx moon_lon
  let bal := balance moon_lon
  let first_lord := ordAt nak_idx
  let first_end := birth + DASHA_YEARS first_lord * bal * yearDays
  ⟨trName lang first_lord, birth, first_end, 0, ageYears (first_end - birth),
    (if lang = "Tamil" then predsTamil else predsEnglish) first_lord⟩
    :: mdRows lang nak_idx birth 1 8 first_end

/-- The sequence of sub-period intervals laid out by the bhukti loop of
`generate_current_next_bhukti` (`app.py` lines 581-584) below a major
period of lord `md_lord`: `cnt` intervals from `s` at cyclic position `i`,
each of duration `DASHA_YEARS[md_lord] * DASHA_YEARS[ad_lord] / 120` years. -/
def adRows (md_lord : String) (ad_idx : Int) : Nat → Nat → ℚ → List (String × ℚ × ℚ)
  | _, 0, _ => []
  | i, cnt + 1, s =>
    let lord := ordAt (ad_idx + (i : Int))
    let d := DASHA_YEARS md_lord * DASHA_YEARS lord / 120
    (lord, s, s + d * yearDays) :: adRows md_lord ad_idx (i + 1) cnt (s + d * yearDays)

/-- The sequence of sub-sub-period intervals laid out by the innermost loop
of `generate_current_next_bhukti` (`app.py` lines 589-592) below a sub
period of duration `ad_dur` years: each of duration
`ad_dur * DASHA_YEARS[pd_lord] / 120` years. -/
def pdRows (ad_dur : ℚ) (pd_idx : Int) : Nat → Nat → ℚ → List (String × ℚ × ℚ)
  | _, 0, _ => []
  | j, cnt + 1, s =>
    let lord := ordAt (pd_idx + (j : Int))
    let d := ad_dur * DASHA_YEARS lord / 120
    (lord, s, s + d * yearDays) :: pdRows ad_dur pd_idx (j + 1) cnt (s + d * yearDays)

/-- A list of labelled intervals tiles the span from `a` to `b`: each
interval starts exactly where its predecessor ended (no gap and no overlap
beyond the shared endpoint), the first starts at `a` and the last ends
at `b`. -/
inductive Tiles : ℚ → List (String × ℚ × ℚ) → ℚ → Prop
  | nil (a : ℚ) : Tiles a [] a
  | cons {a c : ℚ} {r : String × ℚ × ℚ} {rs : List (String × ℚ × ℚ)}
      (hs : r.2.1 = a) (ht : Tiles r.2.2 rs c) : Tiles a (r :: rs) c

/-- The interval triple view of a timeline row. -/
def DashaRow.iv (r : DashaRow) : String × ℚ × ℚ := (r.lord, r.startDay, r.endDay)

/-! Basic facts about the constants and the balance factor. -/

theorem yearDays_pos : 0 < yearDays := by norm_num [yearDays]

theorem nakSpan_pos : 0 < nakSpan := by norm_num [nakSpan]

theorem qmod_nonneg (x : ℚ) : 0 ≤ qmod x nakSpan := by
  have h := Int.sub_one_lt_floor (x / nakSpan)
  have hf : (⌊x / nakSpan⌋ : ℚ) ≤ x / nakSpan := Int.floor_le _
  have hn := nakSpan_pos
  unfold qmod
  have : nakSpan * (⌊x / nakSpan⌋ : ℚ) ≤ nakSpan * (x / nakSpan) :=
    mul_le_mul_of_nonneg_left hf (le_of_lt hn)
  have hx : nakSpan * (x / nakSpan) = x := by field_simp
  linarith

theorem qmod_lt (x : ℚ) : qmod x nakSpan < nakSpan := by
  have hf : x / nakSpan - 1 < (⌊x / nakSpan⌋ : ℚ) := Int.sub_one_lt_floor _
  have hn := nakSpan_pos
  unfold qmod
  have : nakSpan * (x / nakSpan - 1) < nakSpan * (⌊x / nakSpan⌋ : ℚ) :=
    (mul_lt_mul_left hn).mpr hf
  have hx : nakSpan * (x / nakSpan) = x := by field_simp
  nlinarith

theorem balance_pos (x : ℚ) : 0 < balance x := by
  have h := qmod_lt x
  have hn := nakSpan_pos
  unfold balance
  have : qmod x nakSpan / nakSpan < 1 := (div_lt_one hn).mpr h
  linarith

theorem balance_le_one (x : ℚ) : balance x ≤ 1 := by
  have h := qmod_nonneg x
  have hn := nakSpan_pos
  unfold balance
  have : 0 ≤ qmod x nakSpan / nakSpan := div_nonneg h (le_of_lt hn)
  linarith

theorem DASHA_YEARS_nonneg (p : String) : 0 ≤ DASHA_YEARS p := by
  unfold DASHA_YEARS
  split_ifs <;> norm_num

theorem ordAt_mem_pos : ∀ p ∈ DASHA_ORDER, 0 < DASHA_YEARS p := by decide

theorem ordAt_lt (k : Int) : (k.emod 9).toNat < DASHA_ORDER.length := by
  have h1 : 0 ≤ k.emod 9 := Int.emod_nonneg k (by norm_num)
  have h2 : k.emod 9 < 9 := Int.emod_lt_of_pos k (by norm_num)
  simp [DASHA_ORDER]
  omega

theorem ordAt_mem (k : Int) : ordAt k ∈ DASHA_ORDER := by
  unfold ordAt
  have h := ordAt_lt k
  rw [List.getD_eq_getElem _ _ h]
  exact List.getElem_mem h

theorem ordAt_pos (k : Int) : 0 < DASHA_YEARS (ordAt k) :=
  ordAt_mem_pos _ (ordAt_mem k)

theorem ordAt_shift (m t : Int) : ordAt (m + t) = ordAt (m.emod 9 + t) := by
  unfold ordAt
  congr 2
  conv_lhs => rw [show m = 9 * (m / 9) + m % 9 from (Int.ediv_add_emod m 9).symm]
  rw [show 9 * (m / 9) + m % 9 + t = m % 9 + t + (m / 9) * 9 by ring]
  exact Int.add_mul_emod_self

theorem ordAt_period (m : Int) : ordAt (m + 9) = ordAt m := by
  unfold ordAt
  congr 2
  rw [show m + 9 = m + 1 * 9 by ring]
  exact Int.add_mul_emod_self

theorem ordAt_indexOf (k : Int) : ((DASHA_ORDER.indexOf (ordAt k) : Nat) : Int) = k.emod 9 := by
  have h1 : 0 ≤ k.emod 9 := Int.emod_nonneg k (by norm_num)
  have h2 : k.emod 9 < 9 := Int.emod_lt_of_pos k (by norm_num)
  unfold ordAt
  interval_cases h : k.emod 9 <;> simp_all <;> decide

/-- Cumulative weights of `cnt` consecutive units of the cyclic sequence,
beginning at offset `j` from base index `k`. -/
def sumY (k : Int) : Nat → Nat → ℚ
  | _, 0 => 0
  | j, cnt + 1 => DASHA_YEARS (ordAt (k + (j : Int))) + sumY k (j + 1) cnt

theorem sumY_nonneg (k : Int) : ∀ cnt j, 0 ≤ sumY k j cnt := by
  intro cnt
  induction cnt with
  | zero => intro j; simp [sumY]
  | succ n ih =>
    intro j
    have h1 := DASHA_YEARS_nonneg (ordAt (k + (j : Int)))
    have h2 := ih (j + 1)
    simp only [sumY]
    linarith

theorem sumY_succ_back (k : Int) : ∀ cnt j, sumY k j (cnt + 1) = sumY k j cnt + DASHA_YEARS (ordAt (k + (j : Int) + (cnt : Int))) := by
  intro cnt
  induction cnt with
  | zero =>
    intro j
    show DASHA_YEARS (ordAt (k + (j : Int))) + sumY k (j + 1) 0 = sumY k j 0 + DASHA_YEARS (ordAt (k + (j : Int) + ((0 : Nat) : Int)))
    have harg : k + (j : Int) + ((0 : Nat) : Int) = k + (j : Int) := by push_cast; ring
    rw [harg]
    show DASHA_YEARS (ordAt (k + (j : Int))) + 0 = 0 + DASHA_YEARS (ordAt (k + (j : Int)))
    ring
  | succ n ih =>
    intro j
    show DASHA_YEARS (ordAt (k + (j : Int))) + sumY k (j + 1) (n + 1) = sumY k j (n + 1 + 1 - 1) + DASHA_YEARS (ordAt (k + (j : Int) + ((n + 1 : Nat) : Int)))
    rw [ih (j + 1)]
    show DASHA_YEARS (ordAt (k + (j : Int))) + (sumY k (j + 1) n + DASHA_YEARS (ordAt (k + ((j + 1 : Nat) : Int) + (n : Int)))) = DASHA_YEARS (ordAt (k + (j : Int))) + sumY k (j + 1) n + DASHA_YEARS (ordAt (k + (j : Int) + ((n + 1 : Nat) : Int)))
    have harg : k + ((j + 1 : Nat) : Int) + (n : Int) = k + (j : Int) + ((n + 1 : Nat) : Int) := by push_cast; ring
    rw [harg]
    ring

theorem sumY_mono (k : Int) {m n : Nat} (h : m ≤ n) : sumY k 0 m ≤ sumY k 0 n := by
  induction n with
  | zero => simp_all
  | succ p ih =>
    rcases Nat.lt_or_ge m (p + 1) with hlt | hge
    · have h1 := ih (Nat.lt_succ_iff.mp hlt)
      have h2 := DASHA_YEARS_nonneg (ordAt (k + ((0 : Nat) : Int) + (p : Int)))
      rw [sumY_succ_back]
      linarith
    · have he : m = p + 1 := le_antisymm h hge
      subst he
      exact le_refl _

theorem sumY_base_shift (m : Int) : ∀ cnt j, sumY (m + 1) j cnt = sumY m (j + 1) cnt := by
  intro cnt
  induction cnt with
  | zero => intro j; rfl
  | succ n ih =>
    intro j
    show DASHA_YEARS (ordAt (m + 1 + (j : Int))) + sumY (m + 1) (j + 1) n = DASHA_YEARS (ordAt (m + ((j + 1 : Nat) : Int))) + sumY m (j + 1 + 1) n
    rw [ih (j + 1)]
    have harg : m + 1 + (j : Int) = m + ((j + 1 : Nat) : Int) := by push_cast; ring
    rw [harg]

theorem sumY_zero_nine : sumY 0 0 9 = 120 := by
  have h0 : DASHA_YEARS (ordAt 0) = 7 := by decide
  have h1 : DASHA_YEARS (ordAt 1) = 20 := by decide
  have h2 : DASHA_YEARS (ordAt 2) = 6 := by decide
  have h3 : DASHA_YEARS (ordAt 3) = 10 := by decide
  have h4 : DASHA_YEARS (ordAt 4) = 7 := by decide
  have h5 : DASHA_YEARS (ordAt 5) = 18 := by decide
  have h6 : DASHA_YEARS (ordAt 6) = 16 := by decide
  have h7 : DASHA_YEARS (ordAt 7) = 19 := by decide
  have h8 : DASHA_YEARS (ordAt 8) = 17 := by decide
  norm_num [sumY, h0, h1, h2, h3, h4, h5, h6, h7, h8]

theorem sumY_rot (m : Int) : sumY (m + 1) 0 9 = sumY m 0 9 := by
  have hL : sumY (m + 1) 0 9 = sumY (m + 1) 0 8 + DASHA_YEARS (ordAt (m + 1 + ((0 : Nat) : Int) + ((8 : Nat) : Int))) := sumY_succ_back (m + 1) 8 0
  have hR : sumY m 0 9 = DASHA_YEARS (ordAt (m + ((0 : Nat) : Int))) + sumY m 1 8 := rfl
  have hS : sumY (m + 1) 0 8 = sumY m 1 8 := by
    have := sumY_base_shift m 8 0
    simpa using this
  have hper : ordAt (m + 1 + ((0 : Nat) : Int) + ((8 : Nat) : Int)) = ordAt (m + ((0 : Nat) : Int)) := by
    have h9 : m + 1 + ((0 : Nat) : Int) + ((8 : Nat) : Int) = (m + ((0 : Nat) : Int)) + 9 := by push_cast; ring
    rw [h9, ordAt_period]
  rw [hL, hS, hper, hR]
  ring

theorem sumY_nine (m : Int) : sumY m 0 9 = 120 := by
  induction m using Int.induction_on with
  | hz => exact sumY_zero_nine
  | hp n ih => rw [sumY_rot ((n : Int))]; exact ih
  | hn n ih =>
    have := sumY_rot (-(n : Int) - 1)
    rw [show -(n : Int) - 1 + 1 = -(n : Int) by ring] at this
    rw [← this]
    exact ih

theorem pdLoop_spec (now c : ℚ) (k : Int) (hc : 0 ≤ c) (a0 : ℚ) :
    ∀ fuel j s, j + fuel = 9 →
      s = a0 + c * sumY k 0 j / 120 * yearDays →
      ∀ j1 lord dur ps pe, pdLoop now c k j fuel s = some (j1, lord, dur, ps, pe) →
        j1 < 9 ∧ lord = ordAt (k + (j1 : Int)) ∧ dur = c * DASHA_YEARS lord / 120 ∧
        pe = ps + dur * yearDays ∧ ps ≤ now ∧ now ≤ pe ∧
        a0 ≤ ps ∧ pe ≤ a0 + c * yearDays := by
  intro fuel
  induction fuel with
  | zero =>
    intro j s hj hs j1 lord dur ps pe h
    simp [pdLoop] at h
  | succ n ih =>
    intro j s hj hs j1 lord dur ps pe h
    have hsum : sumY k 0 (j + 1) = sumY k 0 j + DASHA_YEARS (ordAt (k + (j : Int))) := by
      have harg : k + ((0 : Nat) : Int) + (j : Int) = k + (j : Int) := by push_cast; ring
      have := sumY_succ_back k j 0
      rw [harg] at this
      exact this
    simp only [pdLoop] at h
    split at h
    · rename_i hcond
      simp only [Option.some.injEq, Prod.mk.injEq] at h
      obtain ⟨rfl, rfl, rfl, rfl, rfl⟩ := h
      have hle9 : j + 1 ≤ 9 := by omega
      have hs1 : sumY k 0 (j + 1) ≤ 120 := by
        have := sumY_mono k hle9
        rw [sumY_nine] at this
        exact this
      have hs0 : 0 ≤ sumY k 0 j := sumY_nonneg k j 0
      have hyd : (0 : ℚ) < yearDays := yearDays_pos
      have hofs : 0 ≤ c * sumY k 0 j / 120 * yearDays := by
        apply mul_nonneg
        · apply div_nonneg (mul_nonneg hc hs0)
          norm_num
        · linarith
      refine ⟨by omega, rfl, rfl, rfl, hcond.1, hcond.2, by rw [hs]; linarith, ?_⟩
      have hpe : s + c * DASHA_YEARS (ordAt (k + (j : Int))) / 120 * yearDays
          = a0 + c * sumY k 0 (j + 1) / 120 * yearDays := by
        rw [hs, hsum]; ring
      have hmul : c * sumY k 0 (j + 1) / 120 * yearDays ≤ c * 120 / 120 * yearDays := by
        gcongr
      rw [hpe]
      have : c * 120 / 120 = c := by ring
      rw [this] at hmul
      linarith
    · exact ih (j + 1) (s + c * DASHA_YEARS (ordAt (k + (j : Int))) / 120 * yearDays)
        (by omega) (by rw [hs, hsum]; ring) j1 lord dur ps pe h

theorem adLoop_spec (now : ℚ) (md_lord : String) (md_dur md_start md_end : ℚ) (k : Int) :
    ∀ fuel i s, i + fuel = 9 →
      s = md_start + DASHA_YEARS md_lord * sumY k 0 i / 120 * yearDays →
      ∀ f, adLoop now md_lord md_dur md_start md_end k i fuel s = some f →
        f.mdLord = md_lord ∧ f.mdDur = md_dur ∧ f.mdStart = md_start ∧ f.mdEnd = md_end ∧
        f.adIdx = k ∧ f.adPos < 9 ∧ f.adLord = ordAt (k + (f.adPos : Int)) ∧
        f.adDur = DASHA_YEARS md_lord * DASHA_YEARS f.adLord / 120 ∧
        f.adEnd = f.adStart + f.adDur * yearDays ∧
        md_start ≤ f.adStart ∧ f.adEnd ≤ md_start + DASHA_YEARS md_lord * yearDays ∧
        f.adStart ≤ now ∧ now ≤ f.adEnd ∧
        f.pdPos < 9 ∧
        f.pdLord = ordAt (((DASHA_ORDER.indexOf f.adLord : Nat) : Int) + (f.pdPos : Int)) ∧
        f.pdDur = f.adDur * DASHA_YEARS f.pdLord / 120 ∧
        f.pdEnd = f.pdStart + f.pdDur * yearDays ∧
        f.adStart ≤ f.pdStart ∧ f.pdEnd ≤ f.adEnd ∧
        f.pdStart ≤ now ∧ now ≤ f.pdEnd := by
  intro fuel
  induction fuel with
  | zero =>
    intro i s hi hs f h
    simp [adLoop] at h
  | succ n ih =>
    intro i s hi hs f h
    have hY := DASHA_YEARS_nonneg md_lord
    have hsum : sumY k 0 (i + 1) = sumY k 0 i + DASHA_YEARS (ordAt (k + (i : Int))) := by
      have harg : k + ((0 : Nat) : Int) + (i : Int) = k + (i : Int) := by push_cast; ring
      have := sumY_succ_back k i 0
      rw [harg] at this
      exact this
    simp only [adLoop] at h
    split at h
    · rename_i j lordp durp ps pe heq
      split at heq
      · rename_i hcond
        simp only [Option.some.injEq] at h
        have hdnn : 0 ≤ DASHA_YEARS md_lord * DASHA_YEARS (ordAt (k + (i : Int))) / 120 := by
          apply div_nonneg (mul_nonneg hY (DASHA_YEARS_nonneg _))
          norm_num
        have hpd := pdLoop_spec now
          (DASHA_YEARS md_lord * DASHA_YEARS (ordAt (k + (i : Int))) / 120)
          ((DASHA_ORDER.indexOf (ordAt (k + (i : Int))) : Nat) : Int) hdnn s 9 0 s
          (by omega) (by simp [sumY]) j lordp durp ps pe heq
        obtain ⟨hj9, hlordp, hdurp, hpe, hpsn, hnpe, hps0, hpele⟩ := hpd
        subst h
        dsimp only
        have hle9 : i + 1 ≤ 9 := by omega
        have hs1 : sumY k 0 (i + 1) ≤ 120 := by
          have := sumY_mono k hle9
          rw [sumY_nine] at this
          exact this
        have hs0 : 0 ≤ sumY k 0 i := sumY_nonneg k i 0
        have hyd : (0 : ℚ) < yearDays := yearDays_pos
        have hofs : 0 ≤ DASHA_YEARS md_lord * sumY k 0 i / 120 * yearDays := by
          apply mul_nonneg
          · apply div_nonneg (mul_nonneg hY hs0)
            norm_num
          · linarith
        refine ⟨rfl, rfl, rfl, rfl, rfl, by omega, rfl, rfl, rfl, by rw [hs]; linarith, ?_,
          hcond.1, hcond.2, by omega, hlordp, hdurp, hpe, hps0, ?_, hpsn, hnpe⟩
        · have hend : s + DASHA_YEARS md_lord * DASHA_YEARS (ordAt (k + (i : Int))) / 120 * yearDays
              = md_start + DASHA_YEARS md_lord * sumY k 0 (i + 1) / 120 * yearDays := by
            rw [hs, hsum]; ring
          have hmul : DASHA_YEARS md_lord * sumY k 0 (i + 1) / 120 * yearDays
              ≤ DASHA_YEARS md_lord * 120 / 120 * yearDays := by gcongr
          have hsimp : DASHA_YEARS md_lord * 120 / 120 = DASHA_YEARS md_lord := by ring
          rw [hend]
          rw [hsimp] at hmul
          linarith
        · exact hpele
      · simp at heq
    · rename_i heq
      exact ih (i + 1) (s + DASHA_YEARS md_lord * DASHA_YEARS (ordAt (k + (i : Int))) / 120 * yearDays)
        (by omega) (by rw [hs, hsum]; ring) f h

/-- Everything the three nested search loops guarantee about a located
period record, relative to the birth instant, the query instant and the
initial balance factor `bal0`. -/
structure FoundFacts (birth now bal0 : ℚ) (f : FoundPeriods) : Prop where
  md_lord_mem : ∃ k : Int, f.mdLord = ordAt k
  ad_idx_eq : f.adIdx = ((DASHA_ORDER.indexOf f.mdLord : Nat) : Int)
  birth_le : birth ≤ f.mdStart
  md_now_lo : f.mdStart ≤ now
  md_now_hi : now ≤ f.mdEnd
  md_end_eq : f.mdEnd = f.mdStart + f.mdDur * yearDays
  md_dur_first : f.mdStart = birth → f.mdDur = DASHA_YEARS f.mdLord * bal0
  md_dur_rest : f.mdStart ≠ birth → f.mdDur = DASHA_YEARS f.mdLord
  ad_pos_lt : f.adPos < 9
  ad_lord_eq : f.adLord = ordAt (f.adIdx + (f.adPos : Int))
  ad_dur_eq : f.adDur = DASHA_YEARS f.mdLord * DASHA_YEARS f.adLord / 120
  ad_end_eq : f.adEnd = f.adStart + f.adDur * yearDays
  ad_lo : f.mdStart ≤ f.adStart
  ad_hi : f.adEnd ≤ f.mdStart + DASHA_YEARS f.mdLord * yearDays
  ad_now_lo : f.adStart ≤ now
  ad_now_hi : now ≤ f.adEnd
  pd_pos_lt : f.pdPos < 9
  pd_lord_eq : f.pdLord = ordAt (((DASHA_ORDER.indexOf f.adLord : Nat) : Int) + (f.pdPos : Int))
  pd_dur_eq : f.pdDur = f.adDur * DASHA_YEARS f.pdLord / 120
  pd_end_eq : f.pdEnd = f.pdStart + f.pdDur * yearDays
  pd_lo : f.adStart ≤ f.pdStart
  pd_hi : f.pdEnd ≤ f.adEnd
  pd_now_lo : f.pdStart ≤ now
  pd_now_hi : now ≤ f.pdEnd

theorem mdLoop_spec (birth now bal0 : ℚ) :
    ∀ fuel curr idx bal, birth ≤ curr → (curr = birth → bal = bal0) → 0 < bal →
      ∀ f, mdLoop birth now fuel curr idx bal = some f → FoundFacts birth now bal0 f := by
  intro fuel
  induction fuel with
  | zero =>
    intro curr idx bal hbc hbal hbpos f h
    simp [mdLoop] at h
  | succ n ih =>
    intro curr idx bal hbc hbal hbpos f h
    have hyd := yearDays_pos
    simp only [mdLoop] at h
    set D : ℚ := (if curr = birth then DASHA_YEARS (ordAt idx) * bal else DASHA_YEARS (ordAt idx)) with hD
    have hpos : 0 < D := by
      rw [hD]
      split
      · exact mul_pos (ordAt_pos idx) hbpos
      · exact ordAt_pos idx
    split at h
    · rename_i f' heq
      simp only [Option.some.injEq] at h
      subst h
      split at heq
      · rename_i hcond
        have hspec := adLoop_spec now (ordAt idx) D curr (curr + D * yearDays)
          ((DASHA_ORDER.indexOf (ordAt idx) : Nat) : Int) 9 0 curr (by omega) (by simp [sumY])
          f' heq
        obtain ⟨hmdl, hmdd, hmds, hmde, hadidx, hadpos, hadlord, haddur, hadend, hadlo, hadhi,
          hadnl, hadnh, hpdpos, hpdlord, hpddur, hpdend, hpdlo, hpdhi, hpdnl, hpdnh⟩ := hspec
        refine ⟨⟨idx, hmdl⟩, by rw [hadidx, hmdl], by rw [hmds]; exact hbc,
          by rw [hmds]; exact hcond.1, by rw [hmde]; exact hcond.2,
          by rw [hmde, hmds, hmdd], ?_, ?_, hadpos, by rw [hadlord, hadidx],
          by rw [haddur, hmdl], hadend, by rw [hmds]; exact hadlo,
          by rw [hmds, hmdl]; exact hadhi, hadnl, hadnh, hpdpos, hpdlord, hpddur, hpdend,
          hpdlo, hpdhi, hpdnl, hpdnh⟩
        · intro hfb
          rw [hmds] at hfb
          rw [hmdd, hD, if_pos hfb, hbal hfb, hmdl]
        · intro hfb
          rw [hmds] at hfb
          rw [hmdd, hD, if_neg hfb, hmdl]
      · simp at heq
    · rename_i heq
      have hstep : curr < curr + D * yearDays := by nlinarith
      exact ih (curr + D * yearDays) (idx + 1) 1 (le_trans hbc (le_of_lt hstep))
        (fun hEq => absurd hEq (ne_of_gt (lt_of_le_of_lt hbc hstep))) (by norm_num) f h

theorem mdLoopOf_spec (ml birth now : ℚ) (f : FoundPeriods)
    (h : mdLoopOf ml birth now = some f) : FoundFacts birth now (balance ml) f :=
  mdLoop_spec birth now (balance ml) 20 birth ((nakIdx ml).emod 9)
    (balance ml) (le_refl _) (fun _ => rfl) (balance_pos ml) f h

theorem mdLoop_none_of_past (birth now : ℚ) (hn : now < birth) :
    ∀ fuel curr idx bal, birth ≤ curr → 0 ≤ bal → mdLoop birth now fuel curr idx bal = none := by
  intro fuel
  induction fuel with
  | zero => intro curr idx bal hbc hbal; rfl
  | succ n ih =>
    intro curr idx bal hbc hbal
    have hyd := yearDays_pos
    simp only [mdLoop]
    set D : ℚ := (if curr = birth then DASHA_YEARS (ordAt idx) * bal else DASHA_YEARS (ordAt idx)) with hD
    have hDnn : 0 ≤ D := by
      rw [hD]
      split
      · exact mul_nonneg (DASHA_YEARS_nonneg _) hbal
      · exact DASHA_YEARS_nonneg _
    have hcond : ¬(curr ≤ now ∧ now ≤ curr + D * yearDays) := by
      intro hc
      exact absurd (lt_of_lt_of_le hn hbc) (not_lt.mpr hc.1)
    rw [if_neg hcond]
    exact ih (curr + D * yearDays) (idx + 1) 1 (by nlinarith) (by norm_num)

theorem mdLoopOf_none_of_past (ml birth now : ℚ) (hn : now < birth) :
    mdLoopOf ml birth now = none :=
  mdLoop_none_of_past birth now hn 20 birth ((nakIdx ml).emod 9) (balance ml)
    (le_refl _) (le_of_lt (balance_pos ml))

/-! Success machinery for the full resolver output. -/

theorem mem_of_lookup {l : List (String × Int)} {k : String} {v : Int}
    (h : l.lookup k = some v) : (k, v) ∈ l := by
  induction l with
  | nil => simp [List.lookup] at h
  | cons p t ih =>
    obtain ⟨pk, pv⟩ := p
    simp only [List.lookup] at h
    rcases hbeq : (k == pk) with _ | _
    · rw [hbeq] at h
      exact List.mem_cons_of_mem _ (ih h)
    · rw [hbeq] at h
      simp only [Option.some.injEq] at h
      have hk : k = pk := eq_of_beq hbeq
      subst hk
      subst h
      exact List.mem_cons_self _ _

theorem house_bounds (pbm : List (String × Int)) (p : String)
    (hv : ∀ q hh, (q, hh) ∈ pbm → 1 ≤ hh ∧ hh ≤ 12) :
    1 ≤ (pbm.lookup p).getD 1 ∧ (pbm.lookup p).getD 1 ≤ 12 := by
  rcases hl : pbm.lookup p with _ | v
  · simp
  · simpa using hv p v (mem_of_lookup hl)

theorem topicsEn_some {h : Int} (h1 : 1 ≤ h) (h2 : h ≤ 12) : ∃ s, topicsEn h = some s := by
  interval_cases h <;> simp [topicsEn]

theorem topicsTa_some {h : Int} (h1 : 1 ≤ h) (h2 : h ≤ 12) : ∃ s, topicsTa h = some s := by
  interval_cases h <;> simp [topicsTa]

theorem keyGet_ok {d : Int → Option String} {h : Int} {s : String}
    (hs : d h = some s) : keyGet d h = Except.ok s := by
  simp [keyGet, hs]

theorem bindOk {α β : Type} {e : Except String α} {f : α → Except String β}
    (he : ∃ a, e = Except.ok a) (hf : ∀ a, ∃ b, f a = Except.ok b) :
    ∃ b, (e >>= f) = Except.ok b := by
  obtain ⟨a, ha⟩ := he
  obtain ⟨b, hb⟩ := hf a
  refine ⟨b, ?_⟩
  rw [ha]
  simpa [Bind.bind, Except.bind] using hb

theorem analysis_ok (md ad : String) (pbm : List (String × Int)) (lang : String)
    (hv : ∀ q hh, (q, hh) ∈ pbm → 1 ≤ hh ∧ hh ≤ 12) :
    ∃ s, get_detailed_bhukti_analysis md ad pbm lang = Except.ok s := by
  obtain ⟨hm1, hm2⟩ := house_bounds pbm md hv
  obtain ⟨ha1, ha2⟩ := house_bounds pbm ad hv
  obtain ⟨sm, hsm⟩ := topicsEn_some hm1 hm2
  obtain ⟨sa, hsa⟩ := topicsEn_some ha1 ha2
  obtain ⟨tm, htm⟩ := topicsTa_some hm1 hm2
  obtain ⟨ta, hta⟩ := topicsTa_some ha1 ha2
  simp only [get_detailed_bhukti_analysis]
  split_ifs <;>
    first
      | exact bindOk (bindOk ⟨_, keyGet_ok htm⟩ (fun _ => ⟨_, rfl⟩))
          (fun _ => bindOk ⟨_, keyGet_ok hta⟩ (fun _ => ⟨_, rfl⟩))
      | exact bindOk (bindOk ⟨_, keyGet_ok hta⟩ (fun _ => ⟨_, rfl⟩))
          (fun _ => bindOk ⟨_, keyGet_ok hta⟩ (fun _ => ⟨_, rfl⟩))
      | exact bindOk (bindOk ⟨_, keyGet_ok hsm⟩ (fun _ => ⟨_, rfl⟩))
          (fun _ => bindOk ⟨_, keyGet_ok hsa⟩ (fun _ => ⟨_, rfl⟩))
      | exact bindOk (bindOk ⟨_, keyGet_ok hsm⟩
            (fun _ => bindOk ⟨_, keyGet_ok hsa⟩ (fun _ => ⟨_, rfl⟩)))
          (fun _ => bindOk ⟨_, keyGet_ok hsa⟩ (fun _ => ⟨_, rfl⟩))

/-- Default phase record, used only as a `getD` fallback in statements. -/
def phNull : Phase := ⟨"", "", PhaseDates.label "", ""⟩

/-- Default timeline row, used only as a `getD` fallback in statements. -/
def rowNull : DashaRow := ⟨"", 0, 0, 0, 0, ""⟩

/-- Extract the payload of a successful resolver run (fallback: empty). -/
def okSomeOf (r : Except String (Option (List Phase × ActivePd))) : List Phase × ActivePd :=
  match r with
  | Except.ok (some pa) => pa
  | _ => ([], ⟨"", "", "", 0, 0⟩)

/-- The pair returned by a resolver run, through `okSomeOf`. -/
def resPair (ml b now : ℚ) (pbm : List (String × Int)) (lang : String) :
    List Phase × ActivePd :=
  okSomeOf (generate_current_next_bhukti ml b now pbm lang)

/-- The `active_pd` component of a resolver result, when it succeeded. -/
def activeOf (r : Except String (Option (List Phase × ActivePd))) : Option ActivePd :=
  match r with
  | Except.ok (some pa) => some pa.2
  | _ => none

/-- Whether an `Except` result is a normal return (not an exception). -/
def isOkResult (r : Except String (Option (List Phase × ActivePd))) : Bool :=
  match r with
  | Except.ok _ => true
  | Except.error _ => false

theorem gen_shape (ml b now : ℚ) (pbm : List (String × Int)) (lang : String)
    (f : FoundPeriods) (hf : mdLoopOf ml b now = some f)
    (hv : ∀ q hh, (q, hh) ∈ pbm → 1 ≤ hh ∧ hh ≤ 12) :
    ∃ t1 t2, generate_current_next_bhukti ml b now pbm lang = Except.ok (some
      ([⟨(if lang = "Tamil" then "நடப்பு புக்தி" else "CURRENT PHASE"),
         trName lang f.mdLord ++ " - " ++ trName lang f.adLord,
         PhaseDates.span f.adStart f.adEnd, t1⟩,
        ⟨(if lang = "Tamil" then "அடுத்த புக்தி" else "NEXT PHASE"),
         trName lang f.mdLord ++ " - " ++ trName lang (ordAt (f.adIdx + (f.adPos : Int) + 1)),
         PhaseDates.label (if lang = "Tamil" then "விரைவில்..." else "Upcoming"), t2⟩],
       ⟨trName lang f.mdLord, trName lang f.adLord, trName lang f.pdLord,
        f.pdStart, f.pdEnd⟩)) := by
  obtain ⟨t1, ht1⟩ := analysis_ok f.mdLord f.adLord pbm lang hv
  obtain ⟨t2, ht2⟩ := analysis_ok f.mdLord (ordAt (f.adIdx + (f.adPos : Int) + 1)) pbm lang hv
  refine ⟨t1, t2, ?_⟩
  simp only [generate_current_next_bhukti, hf]
  rw [ht1, ht2]
  rfl

theorem gen_none (ml b now : ℚ) (pbm : List (String × Int)) (lang : String)
    (hf : mdLoopOf ml b now = none) :
    generate_current_next_bhukti ml b now pbm lang = Except.ok none := by
  simp only [generate_current_next_bhukti, hf]

theorem gen_eq_resPair (ml b now : ℚ) (pbm : List (String × Int)) (lang : String)
    (f : FoundPeriods) (hf : mdLoopOf ml b now = some f)
    (hv : ∀ q hh, (q, hh) ∈ pbm → 1 ≤ hh ∧ hh ≤ 12) :
    generate_current_next_bhukti ml b now pbm lang =
      Except.ok (some (resPair ml b now pbm lang)) := by
  obtain ⟨t1, t2, heq⟩ := gen_shape ml b now pbm lang f hf hv
  rw [heq, resPair, heq]
  rfl

theorem gen_activeOf (ml b now : ℚ) (pbm : List (String × Int)) (lang : String)
    (f : FoundPeriods) (hf : mdLoopOf ml b now = some f)
    (hv : ∀ q hh, (q, hh) ∈ pbm → 1 ≤ hh ∧ hh ≤ 12) :
    activeOf (generate_current_next_bhukti ml b now pbm lang) =
      some ⟨trName lang f.mdLord, trName lang f.adLord, trName lang f.pdLord,
        f.pdStart, f.pdEnd⟩ := by
  obtain ⟨t1, t2, heq⟩ := gen_shape ml b now pbm lang f hf hv
  rw [heq, activeOf]

theorem gen_isOk (ml b now : ℚ) (pbm : List (String × Int)) (lang : String)
    (hv : ∀ q hh, (q, hh) ∈ pbm → 1 ≤ hh ∧ hh ≤ 12) :
    isOkResult (generate_current_next_bhukti ml b now pbm lang) = true := by
  rcases hf : mdLoopOf ml b now with _ | f
  · rw [gen_none ml b now pbm lang hf, isOkResult]
  · obtain ⟨t1, t2, heq⟩ := gen_shape ml b now pbm lang f hf hv
    rw [heq, isOkResult]

/-! Tiling of the generated interval sequences. -/

theorem Tiles_unique {l : List (String × ℚ × ℚ)} :
    ∀ {a b c : ℚ}, Tiles a l b → Tiles a l c → b = c := by
  induction l with
  | nil =>
    intro a b c h1 h2
    cases h1
    cases h2
    rfl
  | cons r t ih =>
    intro a b c h1 h2
    cases h1 with
    | cons hs ht =>
      cases h2 with
      | cons hs' ht' => exact ih ht ht'

theorem pdRows_tiles (c : ℚ) (k : Int) :
    ∀ cnt j s, Tiles s (pdRows c k j cnt s) (s + c * sumY k j cnt / 120 * yearDays) := by
  intro cnt
  induction cnt with
  | zero =>
    intro j s
    have h : s + c * sumY k j 0 / 120 * yearDays = s := by
      rw [show sumY k j 0 = 0 from rfl]; ring
    rw [h]
    exact Tiles.nil s
  | succ n ih =>
    intro j s
    have ih' := ih (j + 1) (s + c * DASHA_YEARS (ordAt (k + (j : Int))) / 120 * yearDays)
    have hC : s + c * DASHA_YEARS (ordAt (k + (j : Int))) / 120 * yearDays
        + c * sumY k (j + 1) n / 120 * yearDays
        = s + c * sumY k j (n + 1) / 120 * yearDays := by
      rw [show sumY k j (n + 1) = DASHA_YEARS (ordAt (k + (j : Int))) + sumY k (j + 1) n from rfl]
      ring
    rw [← hC]
    exact Tiles.cons rfl ih'

theorem pdRows_nine (c : ℚ) (k : Int) (s : ℚ) :
    Tiles s (pdRows c k 0 9 s) (s + c * yearDays) := by
  have h := pdRows_tiles c k 9 0 s
  rw [sumY_nine] at h
  have he : s + c * 120 / 120 * yearDays = s + c * yearDays := by ring
  rw [he] at h
  exact h

theorem adRows_eq_pdRows (md : String) (k : Int) :
    ∀ cnt j s, adRows md k j cnt s = pdRows (DASHA_YEARS md) k j cnt s := by
  intro cnt
  induction cnt with
  | zero => intro j s; rfl
  | succ n ih =>
    intro j s
    show (_ :: adRows md k (j + 1) n _) = (_ :: pdRows (DASHA_YEARS md) k (j + 1) n _)
    rw [ih (j + 1)]

theorem adRows_nine (md : String) (k : Int) (s : ℚ) :
    Tiles s (adRows md k 0 9 s) (s + DASHA_YEARS md * yearDays) := by
  rw [adRows_eq_pdRows]
  exact pdRows_nine (DASHA_YEARS md) k s

theorem mdRows_tiles (lang : String) (k : Int) (b : ℚ) :
    ∀ cnt j s, Tiles s ((mdRows lang k b j cnt s).map DashaRow.iv)
      (s + sumY k j cnt * yearDays) := by
  intro cnt
  induction cnt with
  | zero =>
    intro j s
    have h : s + sumY k j 0 * yearDays = s := by
      rw [show sumY k j 0 = 0 from rfl]; ring
    rw [h]
    exact Tiles.nil s
  | succ n ih =>
    intro j s
    have ih' := ih (j + 1) (s + DASHA_YEARS (ordAt (k + (j : Int))) * yearDays)
    have hC : s + DASHA_YEARS (ordAt (k + (j : Int))) * yearDays + sumY k (j + 1) n * yearDays
        = s + sumY k j (n + 1) * yearDays := by
      rw [show sumY k j (n + 1) = DASHA_YEARS (ordAt (k + (j : Int))) + sumY k (j + 1) n from rfl]
      ring
    rw [← hC]
    exact Tiles.cons rfl ih'

theorem sumY_one_eight (k : Int) : sumY k 1 8 = 120 - DASHA_YEARS (ordAt k) := by
  have h9 := sumY_nine k
  have h0 : sumY k 0 9 = DASHA_YEARS (ordAt (k + ((0 : Nat) : Int))) + sumY k 1 8 := rfl
  have harg : k + ((0 : Nat) : Int) = k := by push_cast; ring
  rw [h0, harg] at h9
  linarith

theorem table_tiles (ml b : ℚ) (lang : String) :
    Tiles b ((generate_mahadasha_table ml b lang).map DashaRow.iv)
      (b + (120 - DASHA_YEARS (ordAt (nakIdx ml)) * (1 - balance ml)) * yearDays) := by
  have hmd := mdRows_tiles lang (nakIdx ml) b 8 1
    (b + DASHA_YEARS (ordAt (nakIdx ml)) * balance ml * yearDays)
  rw [sumY_one_eight] at hmd
  have hC : b + DASHA_YEARS (ordAt (nakIdx ml)) * balance ml * yearDays
      + (120 - DASHA_YEARS (ordAt (nakIdx ml))) * yearDays
      = b + (120 - DASHA_YEARS (ordAt (nakIdx ml)) * (1 - balance ml)) * yearDays := by
    ring
  rw [hC] at hmd
  exact Tiles.cons rfl hmd

theorem mdRows_length (lang : String) (k : Int) (b : ℚ) :
    ∀ cnt j s, (mdRows lang k b j cnt s).length = cnt := by
  intro cnt
  induction cnt with
  | zero => intro j s; rfl
  | succ n ih =>
    intro j s
    show (mdRows lang k b (j + 1) n _).length + 1 = n + 1
    rw [ih (j + 1)]

theorem mdRows_getD_lord (lang : String) (k : Int) (b : ℚ) :
    ∀ cnt j s t, t < cnt →
      ((mdRows lang k b j cnt s).getD t rowNull).lord
        = trName lang (ordAt (k + (j : Int) + (t : Int))) := by
  intro cnt
  induction cnt with
  | zero => intro j s t ht; omega
  | succ n ih =>
    intro j s t ht
    cases t with
    | zero =>
      have harg : k + (j : Int) + ((0 : Nat) : Int) = k + (j : Int) := by push_cast; ring
      rw [harg]
      rfl
    | succ m =>
      have harg : k + ((j + 1 : Nat) : Int) + (m : Int) = k + (j : Int) + ((m + 1 : Nat) : Int) := by
        push_cast; ring
      have := ih (j + 1) (s + DASHA_YEARS (ordAt (k + (j : Int))) * yearDays) m (by omega)
      rw [harg] at this
      exact this

theorem mdRows_getD_dur (lang : String) (k : Int) (b : ℚ) :
    ∀ cnt j s t, t < cnt →
      ((mdRows lang k b j cnt s).getD t rowNull).endDay
          - ((mdRows lang k b j cnt s).getD t rowNull).startDay
        = DASHA_YEARS (ordAt (k + (j : Int) + (t : Int))) * yearDays := by
  intro cnt
  induction cnt with
  | zero => intro j s t ht; omega
  | succ n ih =>
    intro j s t ht
    cases t with
    | zero =>
      have harg : k + (j : Int) + ((0 : Nat) : Int) = k + (j : Int) := by push_cast; ring
      rw [harg]
      show (s + DASHA_YEARS (ordAt (k + (j : Int))) * yearDays) - s = _
      ring
    | succ m =>
      have harg : k + ((j + 1 : Nat) : Int) + (m : Int) = k + (j : Int) + ((m + 1 : Nat) : Int) := by
        push_cast; ring
      have := ih (j + 1) (s + DASHA_YEARS (ordAt (k + (j : Int))) * yearDays) m (by omega)
      rw [harg] at this
      exact this

theorem mdRows_mem_mono (lang : String) (k : Int) (b : ℚ) :
    ∀ cnt j s r, r ∈ mdRows lang k b j cnt s → r.startDay < r.endDay := by
  intro cnt
  induction cnt with
  | zero => intro j s r hr; simp [mdRows] at hr
  | succ n ih =>
    intro j s r hr
    rcases List.mem_cons.mp hr with hh | hh
    · subst hh
      have hy := ordAt_pos (k + (j : Int))
      have hyd := yearDays_pos
      show s < s + DASHA_YEARS (ordAt (k + (j : Int))) * yearDays
      nlinarith
    · exact ih (j + 1) _ r hh

/-! Single-step evaluation lemmas for the three search loops, used to
evaluate the resolver at concrete inputs one iteration at a time. -/

theorem yKetu : DASHA_YEARS "Ketu" = 7 := rfl

theorem yVenus : DASHA_YEARS "Venus" = 20 := rfl

theorem ySun : DASHA_YEARS "Sun" = 6 := rfl

theorem yMoon : DASHA_YEARS "Moon" = 10 := rfl

theorem yMars : DASHA_YEARS "Mars" = 7 := rfl

theorem yRahu : DASHA_YEARS "Rahu" = 18 := rfl

theorem yJupiter : DASHA_YEARS "Jupiter" = 16 := rfl

theorem ySaturn : DASHA_YEARS "Saturn" = 19 := rfl

theorem yMercury : DASHA_YEARS "Mercury" = 17 := rfl

theorem pdLoop_miss (now c : ℚ) (k : Int) (j fuel : Nat) (s d : ℚ)
    (lord : String) (hlord : ordAt (k + (j : Int)) = lord)
    (hd : d = c * DASHA_YEARS lord / 120)
    (s2 : ℚ) (hs2 : s2 = s + d * yearDays)
    (hcond : ¬(s ≤ now ∧ now ≤ s2)) :
    pdLoop now c k j (fuel + 1) s = pdLoop now c k (j + 1) fuel s2 := by
  simp only [pdLoop]
  rw [hlord, ← hd, ← hs2, if_neg hcond]

theorem pdLoop_hit (now c : ℚ) (k : Int) (j fuel : Nat) (s d : ℚ)
    (lord : String) (hlord : ordAt (k + (j : Int)) = lord)
    (hd : d = c * DASHA_YEARS lord / 120)
    (s2 : ℚ) (hs2 : s2 = s + d * yearDays)
    (hcond : s ≤ now ∧ now ≤ s2) :
    pdLoop now c k j (fuel + 1) s = some (j, lord, d, s, s2) := by
  simp only [pdLoop]
  rw [hlord, ← hd, ← hs2, if_pos hcond]

theorem adLoop_miss (now : ℚ) (md : String) (mdd mds mde : ℚ) (k : Int) (i fuel : Nat) (s d : ℚ)
    (lord : String) (hlord : ordAt (k + (i : Int)) = lord)
    (hd : d = DASHA_YEARS md * DASHA_YEARS lord / 120)
    (s2 : ℚ) (hs2 : s2 = s + d * yearDays)
    (hcond : ¬(s ≤ now ∧ now ≤ s2)) :
    adLoop now md mdd mds mde k i (fuel + 1) s
      = adLoop now md mdd mds mde k (i + 1) fuel s2 := by
  simp only [adLoop]
  rw [hlord, ← hd, ← hs2, if_neg hcond]

theorem adLoop_hit (now : ℚ) (md : String) (mdd mds mde : ℚ) (k : Int) (i fuel : Nat) (s d : ℚ)
    (lord : String) (hlord : ordAt (k + (i : Int)) = lord)
    (hd : d = DASHA_YEARS md * DASHA_YEARS lord / 120)
    (s2 : ℚ) (hs2 : s2 = s + d * yearDays)
    (kk : Int) (hkk : ((DASHA_ORDER.indexOf lord : Nat) : Int) = kk)
    (hcond : s ≤ now ∧ now ≤ s2)
    (j1 : Nat) (plord : String) (pdur ps pe : ℚ)
    (hpd : pdLoop now d kk 0 9 s = some (j1, plord, pdur, ps, pe)) :
    adLoop now md mdd mds mde k i (fuel + 1) s
      = some ⟨md, mdd, mds, mde, k, i, lord, d, s, s2, j1, plord, pdur, ps, pe⟩ := by
  simp only [adLoop]
  rw [hlord, ← hd, ← hs2, hkk, if_pos hcond, hpd]

theorem mdLoop_miss (birth now : ℚ) (fuel : Nat) (curr : ℚ) (idx : Int) (bal D : ℚ)
    (lord : String) (hlord : ordAt idx = lord)
    (hD : D = if curr = birth then DASHA_YEARS lord * bal else DASHA_YEARS lord)
    (curr2 : ℚ) (hc2 : curr2 = curr + D * yearDays)
    (hcond : ¬(curr ≤ now ∧ now ≤ curr2)) :
    mdLoop birth now (fuel + 1) curr idx bal = mdLoop birth now fuel curr2 (idx + 1) 1 := by
  simp only [mdLoop]
  rw [hlord, ← hD, ← hc2, if_neg hcond]

theorem mdLoop_hit (birth now : ℚ) (fuel : Nat) (curr : ℚ) (idx : Int) (bal D : ℚ)
    (lord : String) (hlord : ordAt idx = lord)
    (hD : D = if curr = birth then DASHA_YEARS lord * bal else DASHA_YEARS lord)
    (mde : ℚ) (hmde : mde = curr + D * yearDays)
    (kk : Int) (hkk : ((DASHA_ORDER.indexOf lord : Nat) : Int) = kk)
    (hcond : curr ≤ now ∧ now ≤ mde)
    (f : FoundPeriods)
    (hA : adLoop now lord D curr mde kk 0 9 curr = some f) :
    mdLoop birth now (fuel + 1) curr idx bal = some f := by
  simp only [mdLoop]
  rw [hlord, ← hD, ← hmde, hkk, if_pos hcond, hA]

/-! Concrete evaluations of the period search, one loop iteration at a time.
The scenarios: query one day after birth; birth + 200 years (73050 days);
birth + 300 years (109575 days); moon longitude at half a nakshatra span
(balance 1/2) with queries at birth and at 3.4 years; the exact end instant
of the first sub-sub interval; a query inside the ninth (last) sub period
of the first major period; and a query at 8 years (inside the second major
period). -/

theorem pdEval_one : pdLoop 1 (49/120) 0 0 9 0 = some (0, "Ketu", (343/14400), 0, (167041/19200)) := by
  exact pdLoop_hit 1 (49/120) 0 0 8 0 (343/14400) "Ketu" (by decide) (by rw [yKetu]; norm_num) (167041/19200) (by norm_num [yearDays]) (by norm_num)

theorem adEval_one : adLoop 1 "Ketu" 7 0 (10227/4) 0 0 9 0 = some ⟨"Ketu", 7, 0, (10227/4), 0, 0, "Ketu", (49/120), 0, (23863/160), 0, "Ketu", (343/14400), 0, (167041/19200)⟩ := by
  exact adLoop_hit 1 "Ketu" 7 0 (10227/4) 0 0 8 0 (49/120) "Ketu" (by decide) (by rw [yKetu]; norm_num) (23863/160) (by norm_num [yearDays]) 0 (by decide) (by norm_num) 0 "Ketu" (343/14400) 0 (167041/19200) pdEval_one

theorem mdEval_one : mdLoopOf 0 0 1 = some ⟨"Ketu", 7, 0, (10227/4), 0, 0, "Ketu", (49/120), 0, (23863/160), 0, "Ketu", (343/14400), 0, (167041/19200)⟩ := by
  have hIdx : (nakIdx 0).emod 9 = 0 := by norm_num [nakIdx, nakSpan]
  have hBal : balance 0 = 1 := by norm_num [balance, qmod, nakSpan]
  rw [show mdLoopOf 0 0 1 = mdLoop 0 1 20 0 ((nakIdx 0).emod 9) (balance 0) from rfl, hIdx, hBal]
  exact mdLoop_hit 0 1 19 0 0 1 7 "Ketu" (by decide) (by rw [yKetu]; norm_num) (10227/4) (by norm_num [yearDays]) 0 (by decide) (by norm_num) _ adEval_one

theorem pdEval_twoHundred : pdLoop 73050 (4/3) 3 0 9 (145613/2) = some (4, "Saturn", (19/90), (2920539/40), (877087/12)) := by
  refine Eq.trans (pdLoop_miss 73050 (4/3) 3 0 8 (145613/2) (1/9) "Moon" (by decide) (by rw [yMoon]; norm_num) (874165/12) (by norm_num [yearDays]) (by norm_num)) ?_
  refine Eq.trans (pdLoop_miss 73050 (4/3) 3 1 7 (874165/12) (7/90) "Mars" (by decide) (by rw [yMars]; norm_num) (8745059/120) (by norm_num [yearDays]) (by norm_num)) ?_
  refine Eq.trans (pdLoop_miss 73050 (4/3) 3 2 6 (8745059/120) (1/5) "Rahu" (by decide) (by rw [yRahu]; norm_num) (1750765/24) (by norm_num [yearDays]) (by norm_num)) ?_
  refine Eq.trans (pdLoop_miss 73050 (4/3) 3 3 5 (1750765/24) (8/45) "Jupiter" (by decide) (by rw [yJupiter]; norm_num) (2920539/40) (by norm_num [yearDays]) (by norm_num)) ?_
  exact pdLoop_hit 73050 (4/3) 3 4 4 (2920539/40) (19/90) "Saturn" (by decide) (by rw [ySaturn]; norm_num) (877087/12) (by norm_num [yearDays]) (by norm_num)

theorem adEval_twoHundred : adLoop 73050 "Jupiter" 16 68667 74511 6 0 9 68667 = some ⟨"Jupiter", 16, 68667, 74511, 6, 6, "Moon", (4/3), (145613/2), (146587/2), 4, "Saturn", (19/90), (2920539/40), (877087/12)⟩ := by
  refine Eq.trans (adLoop_miss 73050 "Jupiter" 16 68667 74511 6 0 8 68667 (32/15) "Jupiter" (by decide) (by rw [yJupiter]; norm_num) (347231/5) (by norm_num [yearDays]) (by norm_num)) ?_
  refine Eq.trans (adLoop_miss 73050 "Jupiter" 16 68667 74511 6 1 7 (347231/5) (38/15) "Saturn" (by decide) (by rw [yJupiter, ySaturn]; norm_num) (140743/2) (by norm_num [yearDays]) (by norm_num)) ?_
  refine Eq.trans (adLoop_miss 73050 "Jupiter" 16 68667 74511 6 2 6 (140743/2) (34/15) "Mercury" (by decide) (by rw [yJupiter, yMercury]; norm_num) (355997/5) (by norm_num [yearDays]) (by norm_num)) ?_
  refine Eq.trans (adLoop_miss 73050 "Jupiter" 16 68667 74511 6 3 5 (355997/5) (14/15) "Ketu" (by decide) (by rw [yJupiter, yKetu]; norm_num) (715403/10) (by norm_num [yearDays]) (by norm_num)) ?_
  refine Eq.trans (adLoop_miss 73050 "Jupiter" 16 68667 74511 6 4 4 (715403/10) (8/3) "Venus" (by decide) (by rw [yJupiter, yVenus]; norm_num) (725143/10) (by norm_num [yearDays]) (by norm_num)) ?_
  refine Eq.trans (adLoop_miss 73050 "Jupiter" 16 68667 74511 6 5 3 (725143/10) (4/5) "Sun" (by decide) (by rw [yJupiter, ySun]; norm_num) (145613/2) (by norm_num [yearDays]) (by norm_num)) ?_
  exact adLoop_hit 73050 "Jupiter" 16 68667 74511 6 6 2 (145613/2) (4/3) "Moon" (by decide) (by rw [yJupiter, yMoon]; norm_num) (146587/2) (by norm_num [yearDays]) 3 (by decide) (by norm_num) 4 "Saturn" (19/90) (2920539/40) (877087/12) pdEval_twoHundred

theorem mdEval_twoHundred : mdLoopOf 0 0 73050 = some ⟨"Jupiter", 16, 68667, 74511, 6, 6, "Moon", (4/3), (145613/2), (146587/2), 4, "Saturn", (19/90), (2920539/40), (877087/12)⟩ := by
  have hIdx : (nakIdx 0).emod 9 = 0 := by norm_num [nakIdx, nakSpan]
  have hBal : balance 0 = 1 := by norm_num [balance, qmod, nakSpan]
  rw [show mdLoopOf 0 0 73050 = mdLoop 0 73050 20 0 ((nakIdx 0).emod 9) (balance 0) from rfl, hIdx, hBal]
  refine Eq.trans (mdLoop_miss 0 73050 19 0 0 1 7 "Ketu" (by decide) (by rw [yKetu]; norm_num) (10227/4) (by norm_num [yearDays]) (by norm_num)) ?_
  refine Eq.trans (mdLoop_miss 0 73050 18 (10227/4) 1 1 20 "Venus" (by decide) (by rw [yVenus]; norm_num) (39447/4) (by norm_num [yearDays]) (by norm_num)) ?_
  refine Eq.trans (mdLoop_miss 0 73050 17 (39447/4) 2 1 6 "Sun" (by decide) (by rw [ySun]; norm_num) (48213/4) (by norm_num [yearDays]) (by norm_num)) ?_
  refine Eq.trans (mdLoop_miss 0 73050 16 (48213/4) 3 1 10 "Moon" (by decide) (by rw [yMoon]; norm_num) (62823/4) (by norm_num [yearDays]) (by norm_num)) ?_
  refine Eq.trans (mdLoop_miss 0 73050 15 (62823/4) 4 1 7 "Mars" (by decide) (by rw [yMars]; norm_num) (36525/2) (by norm_num [yearDays]) (by norm_num)) ?_
  refine Eq.trans (mdLoop_miss 0 73050 14 (36525/2) 5 1 18 "Rahu" (by decide) (by rw [yRahu]; norm_num) 24837 (by norm_num [yearDays]) (by norm_num)) ?_
  refine Eq.trans (mdLoop_miss 0 73050 13 24837 6 1 16 "Jupiter" (by decide) (by rw [yJupiter]; norm_num) 30681 (by norm_num [yearDays]) (by norm_num)) ?_
  refine Eq.trans (mdLoop_miss 0 73050 12 30681 7 1 19 "Saturn" (by decide) (by rw [ySaturn]; norm_num) (150483/4) (by norm_num [yearDays]) (by norm_num)) ?_
  refine Eq.trans (mdLoop_miss 0 73050 11 (150483/4) 8 1 17 "Mercury" (by decide) (by rw [yMercury]; norm_num) 43830 (by norm_num [yearDays]) (by norm_num)) ?_
  refine Eq.trans (mdLoop_miss 0 73050 10 43830 9 1 7 "Ketu" (by decide) (by rw [yKetu]; norm_num) (185547/4) (by norm_num [yearDays]) (by norm_num)) ?_
  refine Eq.trans (mdLoop_miss 0 73050 9 (185547/4) 10 1 20 "Venus" (by decide) (by rw [yVenus]; norm_num) (214767/4) (by norm_num [yearDays]) (by norm_num)) ?_
  refine Eq.trans (mdLoop_miss 0 73050 8 (214767/4) 11 1 6 "Sun" (by decide) (by rw [ySun]; norm_num) (223533/4) (by norm_num [yearDays]) (by norm_num)) ?_
  refine Eq.trans (mdLoop_miss 0 73050 7 (223533/4) 12 1 10 "Moon" (by decide) (by rw [yMoon]; norm_num) (238143/4) (by norm_num [yearDays]) (by norm_num)) ?_
  refine Eq.trans (mdLoop_miss 0 73050 6 (238143/4) 13 1 7 "Mars" (by decide) (by rw [yMars]; norm_num) (124185/2) (by norm_num [yearDays]) (by norm_num)) ?_
  refine Eq.trans (mdLoop_miss 0 73050 5 (124185/2) 14 1 18 "Rahu" (by decide) (by rw [yRahu]; norm_num) 68667 (by norm_num [yearDays]) (by norm_num)) ?_
  exact mdLoop_hit 0 73050 4 68667 15 1 16 "Jupiter" (by decide) (by rw [yJupiter]; norm_num) 74511 (by norm_num [yearDays]) 6 (by decide) (by norm_num) _ adEval_twoHundred

theorem mdEval_threeHundred : mdLoopOf 0 0 109575 = none := by
  have hIdx : (nakIdx 0).emod 9 = 0 := by norm_num [nakIdx, nakSpan]
  have hBal : balance 0 = 1 := by norm_num [balance, qmod, nakSpan]
  rw [show mdLoopOf 0 0 109575 = mdLoop 0 109575 20 0 ((nakIdx 0).emod 9) (balance 0) from rfl, hIdx, hBal]
  refine Eq.trans (mdLoop_miss 0 109575 19 0 0 1 7 "Ketu" (by decide) (by rw [yKetu]; norm_num) (10227/4) (by norm_num [yearDays]) (by norm_num)) ?_
  refine Eq.trans (mdLoop_miss 0 109575 18 (10227/4) 1 1 20 "Venus" (by decide) (by rw [yVenus]; norm_num) (39447/4) (by norm_num [yearDays]) (by norm_num)) ?_
  refine Eq.trans (mdLoop_miss 0 109575 17 (39447/4) 2 1 6 "Sun" (by decide) (by rw [ySun]; norm_num) (48213/4) (by norm_num [yearDays]) (by norm_num)) ?_
  refine Eq.trans (mdLoop_miss 0 109575 16 (48213/4) 3 1 10 "Moon" (by decide) (by rw [yMoon]; norm_num) (62823/4) (by norm_num [yearDays]) (by norm_num)) ?_
  refine Eq.trans (mdLoop_miss 0 109575 15 (62823/4) 4 1 7 "Mars" (by decide) (by rw [yMars]; norm_num) (36525/2) (by norm_num [yearDays]) (by norm_num)) ?_
  refine Eq.trans (mdLoop_miss 0 109575 14 (36525/2) 5 1 18 "Rahu" (by decide) (by rw [yRahu]; norm_num) 24837 (by norm_num [yearDays]) (by norm_num)) ?_
  refine Eq.trans (mdLoop_miss 0 109575 13 24837 6 1 16 "Jupiter" (by decide) (by rw [yJupiter]; norm_num) 30681 (by norm_num [yearDays]) (by norm_num)) ?_
  refine Eq.trans (mdLoop_miss 0 109575 12 30681 7 1 19 "Saturn" (by decide) (by rw [ySaturn]; norm_num) (150483/4) (by norm_num [yearDays]) (by norm_num)) ?_
  refine Eq.trans (mdLoop_miss 0 109575 11 (150483/4) 8 1 17 "Mercury" (by decide) (by rw [yMercury]; norm_num) 43830 (by norm_num [yearDays]) (by norm_num)) ?_
  refine Eq.trans (mdLoop_miss 0 109575 10 43830 9 1 7 "Ketu" (by decide) (by rw [yKetu]; norm_num) (185547/4) (by norm_num [yearDays]) (by norm_num)) ?_
  refine Eq.trans (mdLoop_miss 0 109575 9 (185547/4) 10 1 20 "Venus" (by decide) (by rw [yVenus]; norm_num) (214767/4) (by norm_num [yearDays]) (by norm_num)) ?_
  refine Eq.trans (mdLoop_miss 0 109575 8 (214767/4) 11 1 6 "Sun" (by decide) (by rw [ySun]; norm_num) (223533/4) (by norm_num [yearDays]) (by norm_num)) ?_
  refine Eq.trans (mdLoop_miss 0 109575 7 (223533/4) 12 1 10 "Moon" (by decide) (by rw [yMoon]; norm_num) (238143/4) (by norm_num [yearDays]) (by norm_num)) ?_
  refine Eq.trans (mdLoop_miss 0 109575 6 (238143/4) 13 1 7 "Mars" (by decide) (by rw [yMars]; norm_num) (124185/2) (by norm_num [yearDays]) (by norm_num)) ?_
  refine Eq.trans (mdLoop_miss 0 109575 5 (124185/2) 14 1 18 "Rahu" (by decide) (by rw [yRahu]; norm_num) 68667 (by norm_num [yearDays]) (by norm_num)) ?_
  refine Eq.trans (mdLoop_miss 0 109575 4 68667 15 1 16 "Jupiter" (by decide) (by rw [yJupiter]; norm_num) 74511 (by norm_num [yearDays]) (by norm_num)) ?_
  refine Eq.trans (mdLoop_miss 0 109575 3 74511 16 1 19 "Saturn" (by decide) (by rw [ySaturn]; norm_num) (325803/4) (by norm_num [yearDays]) (by norm_num)) ?_
  refine Eq.trans (mdLoop_miss 0 109575 2 (325803/4) 17 1 17 "Mercury" (by decide) (by rw [yMercury]; norm_num) 87660 (by norm_num [yearDays]) (by norm_num)) ?_
  refine Eq.trans (mdLoop_miss 0 109575 1 87660 18 1 7 "Ketu" (by decide) (by rw [yKetu]; norm_num) (360867/4) (by norm_num [yearDays]) (by norm_num)) ?_
  refine Eq.trans (mdLoop_miss 0 109575 0 (360867/4) 19 1 20 "Venus" (by decide) (by rw [yVenus]; norm_num) (390087/4) (by norm_num [yearDays]) (by norm_num)) ?_
  rfl

theorem pdEval_halfZero : pdLoop 0 (49/120) 0 0 9 0 = some (0, "Ketu", (343/14400), 0, (167041/19200)) := by
  exact pdLoop_hit 0 (49/120) 0 0 8 0 (343/14400) "Ketu" (by decide) (by rw [yKetu]; norm_num) (167041/19200) (by norm_num [yearDays]) (by norm_num)

theorem adEval_halfZero : adLoop 0 "Ketu" (7/2) 0 (10227/8) 0 0 9 0 = some ⟨"Ketu", (7/2), 0, (10227/8), 0, 0, "Ketu", (49/120), 0, (23863/160), 0, "Ketu", (343/14400), 0, (167041/19200)⟩ := by
  exact adLoop_hit 0 "Ketu" (7/2) 0 (10227/8) 0 0 8 0 (49/120) "Ketu" (by decide) (by rw [yKetu]; norm_num) (23863/160) (by norm_num [yearDays]) 0 (by decide) (by norm_num) 0 "Ketu" (343/14400) 0 (167041/19200) pdEval_halfZero

theorem mdEval_halfZero : mdLoopOf (13333333333/2000000000) 0 0 = some ⟨"Ketu", (7/2), 0, (10227/8), 0, 0, "Ketu", (49/120), 0, (23863/160), 0, "Ketu", (343/14400), 0, (167041/19200)⟩ := by
  have hIdx : (nakIdx (13333333333/2000000000)).emod 9 = 0 := by norm_num [nakIdx, nakSpan]
  have hBal : balance (13333333333/2000000000) = (1/2) := by norm_num [balance, qmod, nakSpan]
  rw [show mdLoopOf (13333333333/2000000000) 0 0 = mdLoop 0 0 20 0 ((nakIdx (13333333333/2000000000)).emod 9) (balance (13333333333/2000000000)) from rfl, hIdx, hBal]
  exact mdLoop_hit 0 0 19 0 0 (1/2) (7/2) "Ketu" (by decide) (by rw [yKetu]; norm_num) (10227/8) (by norm_num [yearDays]) 0 (by decide) (by norm_num) _ adEval_halfZero

theorem pdEval_halfMid : pdLoop (24837/20) (21/20) 5 0 9 (17045/16) = some (3, "Mercury", (119/800), (3951031/3200), (412489/320)) := by
  refine Eq.trans (pdLoop_miss (24837/20) (21/20) 5 0 8 (17045/16) (63/400) "Rahu" (by decide) (by rw [yRahu]; norm_num) (1796543/1600) (by norm_num [yearDays]) (by norm_num)) ?_
  refine Eq.trans (pdLoop_miss (24837/20) (21/20) 5 1 7 (1796543/1600) (7/50) "Jupiter" (by decide) (by rw [yJupiter]; norm_num) (1878359/1600) (by norm_num [yearDays]) (by norm_num)) ?_
  refine Eq.trans (pdLoop_miss (24837/20) (21/20) 5 2 6 (1878359/1600) (133/800) "Saturn" (by decide) (by rw [ySaturn]; norm_num) (3951031/3200) (by norm_num [yearDays]) (by norm_num)) ?_
  exact pdLoop_hit (24837/20) (21/20) 5 3 5 (3951031/3200) (119/800) "Mercury" (by decide) (by rw [yMercury]; norm_num) (412489/320) (by norm_num [yearDays]) (by norm_num)

theorem adEval_halfMid : adLoop (24837/20) "Ketu" (7/2) 0 (10227/8) 0 0 9 0 = some ⟨"Ketu", (7/2), 0, (10227/8), 0, 5, "Rahu", (21/20), (17045/16), (57953/40), 3, "Mercury", (119/800), (3951031/3200), (412489/320)⟩ := by
  refine Eq.trans (adLoop_miss (24837/20) "Ketu" (7/2) 0 (10227/8) 0 0 8 0 (49/120) "Ketu" (by decide) (by rw [yKetu]; norm_num) (23863/160) (by norm_num [yearDays]) (by norm_num)) ?_
  refine Eq.trans (adLoop_miss (24837/20) "Ketu" (7/2) 0 (10227/8) 0 1 7 (23863/160) (7/6) "Venus" (by decide) (by rw [yKetu, yVenus]; norm_num) (92043/160) (by norm_num [yearDays]) (by norm_num)) ?_
  refine Eq.trans (adLoop_miss (24837/20) "Ketu" (7/2) 0 (10227/8) 0 2 6 (92043/160) (7/20) "Sun" (by decide) (by rw [yKetu, ySun]; norm_num) (112497/160) (by norm_num [yearDays]) (by norm_num)) ?_
  refine Eq.trans (adLoop_miss (24837/20) "Ketu" (7/2) 0 (10227/8) 0 3 5 (112497/160) (7/12) "Moon" (by decide) (by rw [yKetu, yMoon]; norm_num) (146587/160) (by norm_num [yearDays]) (by norm_num)) ?_
  refine Eq.trans (adLoop_miss (24837/20) "Ketu" (7/2) 0 (10227/8) 0 4 4 (146587/160) (49/120) "Mars" (by decide) (by rw [yKetu, yMars]; norm_num) (17045/16) (by norm_num [yearDays]) (by norm_num)) ?_
  exact adLoop_hit (24837/20) "Ketu" (7/2) 0 (10227/8) 0 5 3 (17045/16) (21/20) "Rahu" (by decide) (by rw [yKetu, yRahu]; norm_num) (57953/40) (by norm_num [yearDays]) 5 (by decide) (by norm_num) 3 "Mercury" (119/800) (3951031/3200) (412489/320) pdEval_halfMid

theorem mdEval_halfMid : mdLoopOf (13333333333/2000000000) 0 (24837/20) = some ⟨"Ketu", (7/2), 0, (10227/8), 0, 5, "Rahu", (21/20), (17045/16), (57953/40), 3, "Mercury", (119/800), (3951031/3200), (412489/320)⟩ := by
  have hIdx : (nakIdx (13333333333/2000000000)).emod 9 = 0 := by norm_num [nakIdx, nakSpan]
  have hBal : balance (13333333333/2000000000) = (1/2) := by norm_num [balance, qmod, nakSpan]
  rw [show mdLoopOf (13333333333/2000000000) 0 (24837/20) = mdLoop 0 (24837/20) 20 0 ((nakIdx (13333333333/2000000000)).emod 9) (balance (13333333333/2000000000)) from rfl, hIdx, hBal]
  exact mdLoop_hit 0 (24837/20) 19 0 0 (1/2) (7/2) "Ketu" (by decide) (by rw [yKetu]; norm_num) (10227/8) (by norm_num [yearDays]) 0 (by decide) (by norm_num) _ adEval_halfMid

theorem pdEval_boundary : pdLoop (167041/19200) (49/120) 0 0 9 0 = some (0, "Ketu", (343/14400), 0, (167041/19200)) := by
  exact pdLoop_hit (167041/19200) (49/120) 0 0 8 0 (343/14400) "Ketu" (by decide) (by rw [yKetu]; norm_num) (167041/19200) (by norm_num [yearDays]) (by norm_num)

theorem adEval_boundary : adLoop (167041/19200) "Ketu" 7 0 (10227/4) 0 0 9 0 = some ⟨"Ketu", 7, 0, (10227/4), 0, 0, "Ketu", (49/120), 0, (23863/160), 0, "Ketu", (343/14400), 0, (167041/19200)⟩ := by
  exact adLoop_hit (167041/19200) "Ketu" 7 0 (10227/4) 0 0 8 0 (49/120) "Ketu" (by decide) (by rw [yKetu]; norm_num) (23863/160) (by norm_num [yearDays]) 0 (by decide) (by norm_num) 0 "Ketu" (343/14400) 0 (167041/19200) pdEval_boundary

theorem mdEval_boundary : mdLoopOf 0 0 (167041/19200) = some ⟨"Ketu", 7, 0, (10227/4), 0, 0, "Ketu", (49/120), 0, (23863/160), 0, "Ketu", (343/14400), 0, (167041/19200)⟩ := by
  have hIdx : (nakIdx 0).emod 9 = 0 := by norm_num [nakIdx, nakSpan]
  have hBal : balance 0 = 1 := by norm_num [balance, qmod, nakSpan]
  rw [show mdLoopOf 0 0 (167041/19200) = mdLoop 0 (167041/19200) 20 0 ((nakIdx 0).emod 9) (balance 0) from rfl, hIdx, hBal]
  exact mdLoop_hit 0 (167041/19200) 19 0 0 1 7 "Ketu" (by decide) (by rw [yKetu]; norm_num) (10227/4) (by norm_num [yearDays]) 0 (by decide) (by norm_num) _ adEval_boundary

theorem pdEval_lastSub : pdLoop (203079/80) (119/120) 8 0 9 (351127/160) = some (8, "Saturn", (2261/14400), (47988493/19200), (10227/4)) := by
  refine Eq.trans (pdLoop_miss (203079/80) (119/120) 8 0 8 (351127/160) (2023/14400) "Mercury" (by decide) (by rw [yMercury]; norm_num) (43120441/19200) (by norm_num [yearDays]) (by norm_num)) ?_
  refine Eq.trans (pdLoop_miss (203079/80) (119/120) 8 1 7 (43120441/19200) (833/14400) "Ketu" (by decide) (by rw [yKetu]; norm_num) (453397/200) (by norm_num [yearDays]) (by norm_num)) ?_
  refine Eq.trans (pdLoop_miss (203079/80) (119/120) 8 2 6 (453397/200) (119/720) "Venus" (by decide) (by rw [yVenus]; norm_num) (11171293/4800) (by norm_num [yearDays]) (by norm_num)) ?_
  refine Eq.trans (pdLoop_miss (203079/80) (119/120) 8 3 5 (11171293/4800) (119/2400) "Sun" (by decide) (by rw [ySun]; norm_num) (4503289/1920) (by norm_num [yearDays]) (by norm_num)) ?_
  refine Eq.trans (pdLoop_miss (203079/80) (119/120) 8 4 4 (4503289/1920) (119/1440) "Moon" (by decide) (by rw [yMoon]; norm_num) (760207/320) (by norm_num [yearDays]) (by norm_num)) ?_
  refine Eq.trans (pdLoop_miss (203079/80) (119/120) 8 5 3 (760207/320) (833/14400) "Mars" (by decide) (by rw [yMars]; norm_num) (46018091/19200) (by norm_num [yearDays]) (by norm_num)) ?_
  refine Eq.trans (pdLoop_miss (203079/80) (119/120) 8 6 2 (46018091/19200) (119/800) "Rahu" (by decide) (by rw [yRahu]; norm_num) (9412249/3840) (by norm_num [yearDays]) (by norm_num)) ?_
  refine Eq.trans (pdLoop_miss (203079/80) (119/120) 8 7 1 (9412249/3840) (119/900) "Jupiter" (by decide) (by rw [yJupiter]; norm_num) (47988493/19200) (by norm_num [yearDays]) (by norm_num)) ?_
  exact pdLoop_hit (203079/80) (119/120) 8 8 0 (47988493/19200) (2261/14400) "Saturn" (by decide) (by rw [ySaturn]; norm_num) (10227/4) (by norm_num [yearDays]) (by norm_num)

theorem adEval_lastSub : adLoop (203079/80) "Ketu" 7 0 (10227/4) 0 0 9 0 = some ⟨"Ketu", 7, 0, (10227/4), 0, 8, "Mercury", (119/120), (351127/160), (10227/4), 8, "Saturn", (2261/14400), (47988493/19200), (10227/4)⟩ := by
  refine Eq.trans (adLoop_miss (203079/80) "Ketu" 7 0 (10227/4) 0 0 8 0 (49/120) "Ketu" (by decide) (by rw [yKetu]; norm_num) (23863/160) (by norm_num [yearDays]) (by norm_num)) ?_
  refine Eq.trans (adLoop_miss (203079/80) "Ketu" 7 0 (10227/4) 0 1 7 (23863/160) (7/6) "Venus" (by decide) (by rw [yKetu, yVenus]; norm_num) (92043/160) (by norm_num [yearDays]) (by norm_num)) ?_
  refine Eq.trans (adLoop_miss (203079/80) "Ketu" 7 0 (10227/4) 0 2 6 (92043/160) (7/20) "Sun" (by decide) (by rw [yKetu, ySun]; norm_num) (112497/160) (by norm_num [yearDays]) (by norm_num)) ?_
  refine Eq.trans (adLoop_miss (203079/80) "Ketu" 7 0 (10227/4) 0 3 5 (112497/160) (7/12) "Moon" (by decide) (by rw [yKetu, yMoon]; norm_num) (146587/160) (by norm_num [yearDays]) (by norm_num)) ?_
  refine Eq.trans (adLoop_miss (203079/80) "Ketu" 7 0 (10227/4) 0 4 4 (146587/160) (49/120) "Mars" (by decide) (by rw [yKetu, yMars]; norm_num) (17045/16) (by norm_num [yearDays]) (by norm_num)) ?_
  refine Eq.trans (adLoop_miss (203079/80) "Ketu" 7 0 (10227/4) 0 5 3 (17045/16) (21/20) "Rahu" (by decide) (by rw [yKetu, yRahu]; norm_num) (57953/40) (by norm_num [yearDays]) (by norm_num)) ?_
  refine Eq.trans (adLoop_miss (203079/80) "Ketu" 7 0 (10227/4) 0 6 2 (57953/40) (14/15) "Jupiter" (by decide) (by rw [yKetu, yJupiter]; norm_num) (71589/40) (by norm_num [yearDays]) (by norm_num)) ?_
  refine Eq.trans (adLoop_miss (203079/80) "Ketu" 7 0 (10227/4) 0 7 1 (71589/40) (133/120) "Saturn" (by decide) (by rw [yKetu, ySaturn]; norm_num) (351127/160) (by norm_num [yearDays]) (by norm_num)) ?_
  exact adLoop_hit (203079/80) "Ketu" 7 0 (10227/4) 0 8 0 (351127/160) (119/120) "Mercury" (by decide) (by rw [yKetu, yMercury]; norm_num) (10227/4) (by norm_num [yearDays]) 8 (by decide) (by norm_num) 8 "Saturn" (2261/14400) (47988493/19200) (10227/4) pdEval_lastSub

theorem mdEval_lastSub : mdLoopOf 0 0 (203079/80) = some ⟨"Ketu", 7, 0, (10227/4), 0, 8, "Mercury", (119/120), (351127/160), (10227/4), 8, "Saturn", (2261/14400), (47988493/19200), (10227/4)⟩ := by
  have hIdx : (nakIdx 0).emod 9 = 0 := by norm_num [nakIdx, nakSpan]
  have hBal : balance 0 = 1 := by norm_num [balance, qmod, nakSpan]
  rw [show mdLoopOf 0 0 (203079/80) = mdLoop 0 (203079/80) 20 0 ((nakIdx 0).emod 9) (balance 0) from rfl, hIdx, hBal]
  exact mdLoop_hit 0 (203079/80) 19 0 0 1 7 "Ketu" (by decide) (by rw [yKetu]; norm_num) (10227/4) (by norm_num [yearDays]) 0 (by decide) (by norm_num) _ adEval_lastSub

theorem pdEval_eightYears : pdLoop 2922 (10/3) 1 0 9 (10227/4) = some (2, "Moon", (5/18), (67693/24), 2922) := by
  refine Eq.trans (pdLoop_miss 2922 (10/3) 1 0 8 (10227/4) (5/9) "Venus" (by decide) (by rw [yVenus]; norm_num) (8279/3) (by norm_num [yearDays]) (by norm_num)) ?_
  refine Eq.trans (pdLoop_miss 2922 (10/3) 1 1 7 (8279/3) (1/6) "Sun" (by decide) (by rw [ySun]; norm_num) (67693/24) (by norm_num [yearDays]) (by norm_num)) ?_
  exact pdLoop_hit 2922 (10/3) 1 2 6 (67693/24) (5/18) "Moon" (by decide) (by rw [yMoon]; norm_num) 2922 (by norm_num [yearDays]) (by norm_num)

theorem adEval_eightYears : adLoop 2922 "Venus" 20 (10227/4) (39447/4) 1 0 9 (10227/4) = some ⟨"Venus", 20, (10227/4), (39447/4), 1, 0, "Venus", (10/3), (10227/4), (15097/4), 2, "Moon", (5/18), (67693/24), 2922⟩ := by
  exact adLoop_hit 2922 "Venus" 20 (10227/4) (39447/4) 1 0 8 (10227/4) (10/3) "Venus" (by decide) (by rw [yVenus]; norm_num) (15097/4) (by norm_num [yearDays]) 1 (by decide) (by norm_num) 2 "Moon" (5/18) (67693/24) 2922 pdEval_eightYears

theorem mdEval_eightYears : mdLoopOf 0 0 2922 = some ⟨"Venus", 20, (10227/4), (39447/4), 1, 0, "Venus", (10/3), (10227/4), (15097/4), 2, "Moon", (5/18), (67693/24), 2922⟩ := by
  have hIdx : (nakIdx 0).emod 9 = 0 := by norm_num [nakIdx, nakSpan]
  have hBal : balance 0 = 1 := by norm_num [balance, qmod, nakSpan]
  rw [show mdLoopOf 0 0 2922 = mdLoop 0 2922 20 0 ((nakIdx 0).emod 9) (balance 0) from rfl, hIdx, hBal]
  refine Eq.trans (mdLoop_miss 0 2922 19 0 0 1 7 "Ketu" (by decide) (by rw [yKetu]; norm_num) (10227/4) (by norm_num [yearDays]) (by norm_num)) ?_
  exact mdLoop_hit 0 2922 18 (10227/4) 1 1 20 "Venus" (by decide) (by rw [yVenus]; norm_num) (39447/4) (by norm_num [yearDays]) 1 (by decide) (by norm_num) _ adEval_eightYears

/-! Small helpers for the claim theorems and witnesses. -/

theorem ordV0 : ordAt 0 = "Ketu" := by decide

theorem nakIdx_half : nakIdx (13333333333/2000000000) = 0 := by
  norm_num [nakIdx, nakSpan]

theorem balance_half : balance (13333333333/2000000000) = 1/2 := by
  norm_num [balance, qmod, nakSpan]

theorem qmod_zero : qmod 0 nakSpan = 0 := by
  norm_num [qmod, nakSpan]

theorem emptyMapValid : ∀ q hh, (q, hh) ∈ ([] : List (String × Int)) → 1 ≤ hh ∧ hh ≤ 12 :=
  fun _ _ hm => absurd hm (List.not_mem_nil _)

theorem sunMapValid : ∀ q hh, (q, hh) ∈ [("Sun", (5 : Int))] → 1 ≤ hh ∧ hh ≤ 12 := by
  intro q hh hm
  simp only [List.mem_singleton, Prod.mk.injEq] at hm
  obtain ⟨rfl, rfl⟩ := hm
  norm_num

theorem venusStart_ne_birth : (10227/4 : ℚ) ≠ 0 := by norm_num

/-- The record located for a query one day after birth with moon longitude 0. -/
def fOne : FoundPeriods :=
  ⟨"Ketu", 7, 0, 10227/4, 0, 0, "Ketu", 49/120, 0, 23863/160, 0, "Ketu", 343/14400, 0, 167041/19200⟩

/-- The record located inside the ninth sub period of the first major period. -/
def fLastSub : FoundPeriods :=
  ⟨"Ketu", 7, 0, 10227/4, 0, 8, "Mercury", 119/120, 351127/160, 10227/4,
   8, "Saturn", 2261/14400, 47988493/19200, 10227/4⟩

/-- The record located at eight years after birth (second major period). -/
def fEightYears : FoundPeriods :=
  ⟨"Venus", 20, 10227/4, 39447/4, 1, 0, "Venus", 10/3, 10227/4, 15097/4,
   2, "Moon", 5/18, 67693/24, 2922⟩

theorem table_getD_mem (ml b : ℚ) (lang : String) (t : Nat) (ht : t < 9) :
    (generate_mahadasha_table ml b lang).getD t rowNull ∈ generate_mahadasha_table ml b lang := by
  have hlen : (generate_mahadasha_table ml b lang).length = 9 := by
    show (mdRows lang (nakIdx ml) b 1 8 _).length + 1 = 9
    rw [mdRows_length]
  have ht' : t < (generate_mahadasha_table ml b lang).length := by omega
  rw [List.getD_eq_getElem _ _ ht']
  exact List.getElem_mem ht'

theorem ordAt_emod (k : Int) : ordAt (k.emod 9) = ordAt k := by
  unfold ordAt
  congr 2
  exact Int.emod_emod_of_dvd k (dvd_refl 9)

theorem next_of_last (f : FoundPeriods) (hidx : f.adIdx = ((DASHA_ORDER.indexOf f.mdLord : Nat) : Int))
    (hmem : ∃ k : Int, f.mdLord = ordAt k) (h8 : f.adPos = 8) :
    ordAt (f.adIdx + (f.adPos : Int) + 1) = f.mdLord := by
  obtain ⟨k0, hk0⟩ := hmem
  rw [h8, hidx, hk0]
  have h9 : ((DASHA_ORDER.indexOf (ordAt k0) : Nat) : Int) + ((8 : Nat) : Int) + 1
      = ((DASHA_ORDER.indexOf (ordAt k0) : Nat) : Int) + 9 := by push_cast; ring
  rw [h9, ordAt_period, ordAt_indexOf, ordAt_emod]

/-- Zeta-reduced shape of the timeline table: a first, balance-truncated row
followed by eight full rows. -/
theorem table_unfold (ml b : ℚ) (lang : String) :
    generate_mahadasha_table ml b lang =
      ⟨trName lang (ordAt (nakIdx ml)), b,
        b + DASHA_YEARS (ordAt (nakIdx ml)) * balance ml * yearDays, 0,
        ageYears (b + DASHA_YEARS (ordAt (nakIdx ml)) * balance ml * yearDays - b),
        (if lang = "Tamil" then predsTamil else predsEnglish) (ordAt (nakIdx ml))⟩
      :: mdRows lang (nakIdx ml) b 1 8
          (b + DASHA_YEARS (ordAt (nakIdx ml)) * balance ml * yearDays) := rfl

/-- C1, counterexample: at `query_instant = birth_instant + 200 years`
(`73050` days, moon longitude 0) the resolver does not fail at all — it
returns a wrapped-around result whose major lord is the Jupiter period of a
second walk through the cycle.  The 20-iteration cap covers roughly 267
years, so 200 years is still bracketed. -/
theorem c1_counterexample :
    generate_current_next_bhukti 0 0 73050 [] "English" ≠ Except.ok none ∧
    activeOf (generate_current_next_bhukti 0 0 73050 [] "English")
      = some ⟨"Jupiter", "Moon", "Saturn", 2920539/40, 877087/12⟩ := by
  have ha := gen_activeOf 0 0 73050 [] "English" _ mdEval_twoHundred emptyMapValid
  constructor
  · intro hEq
    rw [hEq] at ha
    simp [activeOf] at ha
  · exact ha

/-- C1 (amended): the resolver has no typed error; its failure mode is the
implicit `None` return (`Except.ok none` in the model).  Every query before
the birth instant fails that way, and so does a query beyond the roughly
267-year reach of the 20-iteration search, such as birth + 300 years
(`109575` days); but a query at birth + 200 years is still bracketed (see
the counterexample) and is answered with a wrapped-around result. -/
theorem c1_amended :
    (∀ (ml b now : ℚ) (pbm : List (String × Int)) (lang : String), now < b →
      generate_current_next_bhukti ml b now pbm lang = Except.ok none) ∧
    generate_current_next_bhukti 0 0 109575 [] "English" = Except.ok none := by
  constructor
  · intro ml b now pbm lang hn
    exact gen_none ml b now pbm lang (mdLoopOf_none_of_past ml b now hn)
  · exact gen_none 0 0 109575 [] "English" mdEval_threeHundred

/-- C1, witness: a query one day before birth yields the `None` failure. -/
theorem c1_witness :
    generate_current_next_bhukti 0 0 (-1) [] "English" = Except.ok none :=
  c1_amended.1 0 0 (-1) [] "English" (by decide)

/-- C2, counterexample: with identical explicit inputs (moon longitude,
birth instant, planet-house map, language) the source's output still depends
on the wall-clock instant read inside the function by `datetime.now()`
(modelled as the `now` argument): one day after birth it reports the Ketu
period, 200 years later the wrapped Jupiter period. -/
theorem c2_counterexample :
    generate_current_next_bhukti 0 0 1 [] "English"
      ≠ generate_current_next_bhukti 0 0 73050 [] "English" := by
  intro hEq
  have h1 := gen_activeOf 0 0 1 [] "English" _ mdEval_one emptyMapValid
  have h2 := gen_activeOf 0 0 73050 [] "English" _ mdEval_twoHundred emptyMapValid
  rw [hEq, h2] at h1
  simp [trName, ActivePd.mk.injEq] at h1

/-- C2 (amended): the resolver is a pure function of its explicit inputs
together with the wall-clock instant read at entry: fixing that instant,
identical inputs give identical outputs.  The instant is not injected by
the caller in the source; it is read inside via `datetime.now()`
(`app.py` line 567). -/
theorem c2_amended (ml b now1 now2 : ℚ) (pbm : List (String × Int)) (lang : String)
    (h : now1 = now2) :
    generate_current_next_bhukti ml b now1 pbm lang
      = generate_current_next_bhukti ml b now2 pbm lang := by
  rw [h]

/-- C2, witness: determinism at a concrete input. -/
theorem c2_witness :
    generate_current_next_bhukti 0 0 1 [] "English"
      = generate_current_next_bhukti 0 0 1 [] "English" :=
  c2_amended 0 0 1 1 [] "English" rfl

/-- C3, counterexample: with moon longitude at half a nakshatra span
(balance 1/2) and a query at birth, the located sub period has duration
`49/120` years, but the claim's formula `major_duration_years * WEIGHT / 120`
with the truncated first major duration (7/2 years) gives `49/240` years:
the source uses the full weight `DASHA_YEARS[md_lord]`, not the truncated
major duration (`app.py` line 583). -/
theorem c3_counterexample :
    (mdLoopOf (13333333333/2000000000) 0 0).map (fun f => f.adDur) = some (49/120) ∧
    (mdLoopOf (13333333333/2000000000) 0 0).map
        (fun f => (f.mdEnd - f.mdStart) / yearDays * DASHA_YEARS f.adLord / 120)
      = some (49/240) ∧
    (49/120 : ℚ) ≠ (49/240 : ℚ) := by
  refine ⟨by rw [mdEval_halfZero]; rfl, ?_, by norm_num⟩
  rw [mdEval_halfZero]
  show some _ = some _
  norm_num [yearDays, yKetu]

/-- C3 (amended): every located sub period has duration
`DASHA_YEARS[md_lord] * DASHA_YEARS[ad_lord] / 120` years — the full major
weight, not the truncated actual duration of the first major period — and
every located sub-sub period has duration
`ad_dur * DASHA_YEARS[pd_lord] / 120` years as the claim states. -/
theorem c3_amended (ml b now : ℚ) (f : FoundPeriods) (h : mdLoopOf ml b now = some f) :
    f.adDur = DASHA_YEARS f.mdLord * DASHA_YEARS f.adLord / 120 ∧
    f.pdDur = f.adDur * DASHA_YEARS f.pdLord / 120 :=
  ⟨(mdLoopOf_spec ml b now f h).ad_dur_eq, (mdLoopOf_spec ml b now f h).pd_dur_eq⟩

/-- C3, witness: the duration formulas at a concrete resolved record. -/
theorem c3_witness :
    fOne.adDur = DASHA_YEARS fOne.mdLord * DASHA_YEARS fOne.adLord / 120 ∧
    fOne.pdDur = fOne.adDur * DASHA_YEARS fOne.pdLord / 120 :=
  c3_amended 0 0 1 fOne mdEval_one

/-- C4, counterexample: with balance 1/2 the first top-level interval is
`[0, 10227/8]` (3.5 years), but its nine sub intervals laid out by the
source's loop tile `[0, 10227/4]` (7 years): the children of the first
top-level interval do not span their parent, an exception beyond the one
the claim allows. -/
theorem c4_counterexample :
    ((generate_mahadasha_table (13333333333/2000000000) 0 "English").getD 0 rowNull).startDay = 0 ∧
    ((generate_mahadasha_table (13333333333/2000000000) 0 "English").getD 0 rowNull).endDay
      = 10227/8 ∧
    ¬ Tiles 0 (adRows "Ketu" 0 0 9 0) (10227/8) := by
  refine ⟨?_, ?_, ?_⟩
  · rw [table_unfold, List.getD_cons_zero]
  · rw [table_unfold, List.getD_cons_zero]
    show 0 + DASHA_YEARS (ordAt (nakIdx (13333333333/2000000000))) *
        balance (13333333333/2000000000) * yearDays = 10227/8
    rw [nakIdx_half, balance_half, ordV0, yKetu]
    norm_num [yearDays]
  · intro hT
    have h1 := adRows_nine "Ketu" 0 0
    rw [yKetu] at h1
    have heq := Tiles_unique h1 hT
    norm_num [yearDays] at heq

/-- C4 (amended): at the sub-sub level the nine children always tile their
sub parent exactly; at the sub level the nine children tile
`[md_start, md_start + DASHA_YEARS[md_lord] years)`, which coincides with
the parent major interval for every major period except the first one at
birth (whose own span is truncated by the balance factor while its children
are not). -/
theorem c4_amended (ml b now : ℚ) (f : FoundPeriods) (h : mdLoopOf ml b now = some f) :
    Tiles f.adStart
      (pdRows f.adDur ((DASHA_ORDER.indexOf f.adLord : Nat) : Int) 0 9 f.adStart) f.adEnd ∧
    (f.mdStart ≠ b → Tiles f.mdStart (adRows f.mdLord f.adIdx 0 9 f.mdStart) f.mdEnd) := by
  have hs := mdLoopOf_spec ml b now f h
  constructor
  · have h1 := pdRows_nine f.adDur ((DASHA_ORDER.indexOf f.adLord : Nat) : Int) f.adStart
    rw [← hs.ad_end_eq] at h1
    exact h1
  · intro hne
    have h2 := adRows_nine f.mdLord f.adIdx f.mdStart
    have he : f.mdStart + DASHA_YEARS f.mdLord * yearDays = f.mdEnd := by
      rw [hs.md_end_eq, hs.md_dur_rest hne]
    rw [he] at h2
    exact h2

/-- C4, witness: tiling of both child levels below the second major period. -/
theorem c4_witness :
    Tiles fEightYears.adStart
      (pdRows fEightYears.adDur ((DASHA_ORDER.indexOf fEightYears.adLord : Nat) : Int)
        0 9 fEightYears.adStart) fEightYears.adEnd ∧
    Tiles fEightYears.mdStart
      (adRows fEightYears.mdLord fEightYears.adIdx 0 9 fEightYears.mdStart)
      fEightYears.mdEnd :=
  ⟨(c4_amended 0 0 2922 fEightYears mdEval_eightYears).1,
   (c4_amended 0 0 2922 fEightYears mdEval_eightYears).2 venusStart_ne_birth⟩

/-- C5, counterexample: with balance 1/2 and a query at 3.4 years — well
inside the overall 120-year span — the located sub interval ends at
`57953/40` days, beyond its containing major interval's end `10227/8` days:
the sub level of the first major period is not nested inside it. -/
theorem c5_counterexample :
    (mdLoopOf (13333333333/2000000000) 0 (24837/20)).map (fun f => (f.mdEnd, f.adEnd))
      = some (10227/8, 57953/40) ∧
    (10227/8 : ℚ) < 57953/40 ∧ (24837/20 : ℚ) < 120 * yearDays := by
  refine ⟨by rw [mdEval_halfMid]; rfl, by norm_num, by norm_num [yearDays]⟩

/-- C5 (amended): the returned sub-sub interval always lies inside the
returned sub interval, and the sub interval lies inside the major interval
whenever the containing major period is not the first one at birth; for the
first major period the sub interval can overhang the major end (see the
counterexample). -/
theorem c5_amended (ml b now : ℚ) (f : FoundPeriods) (h : mdLoopOf ml b now = some f) :
    f.adStart ≤ f.pdStart ∧ f.pdEnd ≤ f.adEnd ∧ f.mdStart ≤ f.adStart ∧
    (f.mdStart ≠ b → f.adEnd ≤ f.mdEnd) := by
  have hs := mdLoopOf_spec ml b now f h
  refine ⟨hs.pd_lo, hs.pd_hi, hs.ad_lo, ?_⟩
  intro hne
  have he : f.mdStart + DASHA_YEARS f.mdLord * yearDays = f.mdEnd := by
    rw [hs.md_end_eq, hs.md_dur_rest hne]
  rw [← he]
  exact hs.ad_hi

/-- C5, witness: full nesting at a query inside the second major period. -/
theorem c5_witness :
    fEightYears.adStart ≤ fEightYears.pdStart ∧ fEightYears.pdEnd ≤ fEightYears.adEnd ∧
    fEightYears.mdStart ≤ fEightYears.adStart ∧ fEightYears.adEnd ≤ fEightYears.mdEnd :=
  ⟨(c5_amended 0 0 2922 fEightYears mdEval_eightYears).1,
   (c5_amended 0 0 2922 fEightYears mdEval_eightYears).2.1,
   (c5_amended 0 0 2922 fEightYears mdEval_eightYears).2.2.1,
   (c5_amended 0 0 2922 fEightYears mdEval_eightYears).2.2.2 venusStart_ne_birth⟩

/-- C6, counterexample: with balance 1/2 the nine timeline intervals tile
`[birth, birth + 116.5 years)`, not `[birth, birth + 120 years)`: the whole
span is short by the truncated part of the first period, a discrepancy of
3.5 years, far beyond any rounding tolerance. -/
theorem c6_counterexample :
    ¬ Tiles 0 ((generate_mahadasha_table (13333333333/2000000000) 0 "English").map DashaRow.iv)
      (0 + 120 * yearDays) := by
  intro hT
  have h1 := table_tiles (13333333333/2000000000) 0 "English"
  rw [nakIdx_half, balance_half, ordV0, yKetu] at h1
  have heq := Tiles_unique h1 hT
  norm_num [yearDays] at heq

/-- C6 (amended): timeline mode always produces exactly 9 rows, in cyclic
order starting from the starting unit, tiling with no gaps or overlaps and
with strictly increasing endpoints; their union is
`[birth, birth + (120 - WEIGHT[first] * (1 - balance)) years)`, which equals
`[birth, birth + 120 years)` only when the balance factor is 1. -/
theorem c6_amended (ml b : ℚ) (lang : String) :
    (generate_mahadasha_table ml b lang).length = 9 ∧
    Tiles b ((generate_mahadasha_table ml b lang).map DashaRow.iv)
      (b + (120 - DASHA_YEARS (ordAt (nakIdx ml)) * (1 - balance ml)) * yearDays) ∧
    (∀ t : Nat, t < 9 →
      ((generate_mahadasha_table ml b lang).getD t rowNull).lord
        = trName lang (ordAt (nakIdx ml + (t : Int)))) ∧
    (∀ r ∈ generate_mahadasha_table ml b lang, r.startDay < r.endDay) := by
  refine ⟨?_, table_tiles ml b lang, ?_, ?_⟩
  · show (mdRows lang (nakIdx ml) b 1 8
        (b + DASHA_YEARS (ordAt (nakIdx ml)) * balance ml * yearDays)).length + 1 = 9
    rw [mdRows_length]
  · intro t ht
    cases t with
    | zero =>
      rw [table_unfold, List.getD_cons_zero]
      have harg : nakIdx ml + ((0 : Nat) : Int) = nakIdx ml := by push_cast; ring
      rw [harg]
    | succ m =>
      rw [table_unfold, List.getD_cons_succ]
      have harg : nakIdx ml + ((1 : Nat) : Int) + (m : Int)
          = nakIdx ml + ((m + 1 : Nat) : Int) := by push_cast; ring
      have hm := mdRows_getD_lord lang (nakIdx ml) b 8 1
        (b + DASHA_YEARS (ordAt (nakIdx ml)) * balance ml * yearDays) m (by omega)
      rw [harg] at hm
      exact hm
  · intro r hr
    rw [table_unfold] at hr
    rcases List.mem_cons.mp hr with hh | hh
    · subst hh
      have hy := ordAt_pos (nakIdx ml)
      have hbal := balance_pos ml
      have hyd := yearDays_pos
      show b < b + DASHA_YEARS (ordAt (nakIdx ml)) * balance ml * yearDays
      have hprod := mul_pos (mul_pos hy hbal) hyd
      linarith
    · exact mdRows_mem_mono lang (nakIdx ml) b 8 1 _ r hh

/-- C6, witness: nine rows, the cyclic lord of row 3, and a strictly
increasing first row, at moon longitude 0. -/
theorem c6_witness :
    (generate_mahadasha_table 0 0 "English").length = 9 ∧
    ((generate_mahadasha_table 0 0 "English").getD 3 rowNull).lord
      = trName "English" (ordAt (nakIdx 0 + ((3 : Nat) : Int))) ∧
    ((generate_mahadasha_table 0 0 "English").getD 0 rowNull).startDay
      < ((generate_mahadasha_table 0 0 "English").getD 0 rowNull).endDay :=
  ⟨(c6_amended 0 0 "English").1,
   (c6_amended 0 0 "English").2.2.1 3 (by decide),
   (c6_amended 0 0 "English").2.2.2 _ (table_getD_mem 0 0 "English" 0 (by decide))⟩

/-- C7, counterexample: a query exactly equal to the end of the first
sub-sub interval (`167041/19200` days) is resolved to that very interval —
whose reported end equals the query instant — not to the immediately
following one: the source's membership tests are closed on both ends
(`pd_start <= now <= pd_end`, `app.py` line 593). -/
theorem c7_counterexample :
    (mdLoopOf 0 0 (167041/19200)).map (fun f => (f.pdPos, f.pdLord, f.pdEnd))
      = some (0, "Ketu", 167041/19200) := by
  rw [mdEval_boundary]
  rfl

/-- C7 (amended): intervals behave as closed `[start, end]` at every level:
the returned record always satisfies `start <= query <= end` for the major,
sub and sub-sub intervals, and a query equal to an interval's end is served
by that interval (the earlier of the two it belongs to), not the following
one. -/
theorem c7_amended (ml b now : ℚ) (f : FoundPeriods) (h : mdLoopOf ml b now = some f) :
    (f.pdStart ≤ now ∧ now ≤ f.pdEnd) ∧ (f.adStart ≤ now ∧ now ≤ f.adEnd) ∧
    (f.mdStart ≤ now ∧ now ≤ f.mdEnd) := by
  have hs := mdLoopOf_spec ml b now f h
  exact ⟨⟨hs.pd_now_lo, hs.pd_now_hi⟩, ⟨hs.ad_now_lo, hs.ad_now_hi⟩,
    ⟨hs.md_now_lo, hs.md_now_hi⟩⟩

/-- C7, witness: closed membership at the boundary query, where the query
equals the returned interval's end. -/
theorem c7_witness :
    (fOne.pdStart ≤ (167041/19200 : ℚ) ∧ (167041/19200 : ℚ) ≤ fOne.pdEnd) ∧
    (fOne.adStart ≤ (167041/19200 : ℚ) ∧ (167041/19200 : ℚ) ≤ fOne.adEnd) ∧
    (fOne.mdStart ≤ (167041/19200 : ℚ) ∧ (167041/19200 : ℚ) ≤ fOne.mdEnd) :=
  c7_amended 0 0 (167041/19200) fOne mdEval_boundary

/-- C8 (confirmed): the first timeline row carries the unit selected by
`floor(moon_lon / (span/9)) mod 9` and has duration
`WEIGHT * (1 - epoch_fraction)` years with
`epoch_fraction = (moon_lon mod span/9) / (span/9)`; a zero fraction gives
the full weight, and every later row has the full `WEIGHT[unit]` years. -/
theorem c8_theorem (ml b : ℚ) (lang : String) :
    ((generate_mahadasha_table ml b lang).getD 0 rowNull).lord
      = trName lang (ordAt (nakIdx ml)) ∧
    ((generate_mahadasha_table ml b lang).getD 0 rowNull).endDay
        - ((generate_mahadasha_table ml b lang).getD 0 rowNull).startDay
      = DASHA_YEARS (ordAt (nakIdx ml)) * (1 - qmod ml nakSpan / nakSpan) * yearDays ∧
    (qmod ml nakSpan = 0 →
      ((generate_mahadasha_table ml b lang).getD 0 rowNull).endDay
          - ((generate_mahadasha_table ml b lang).getD 0 rowNull).startDay
        = DASHA_YEARS (ordAt (nakIdx ml)) * yearDays) ∧
    (∀ t : Nat, 1 ≤ t → t < 9 →
      ((generate_mahadasha_table ml b lang).getD t rowNull).endDay
          - ((generate_mahadasha_table ml b lang).getD t rowNull).startDay
        = DASHA_YEARS (ordAt (nakIdx ml + (t : Int))) * yearDays) := by
  have hdur : ((generate_mahadasha_table ml b lang).getD 0 rowNull).endDay
      - ((generate_mahadasha_table ml b lang).getD 0 rowNull).startDay
      = DASHA_YEARS (ordAt (nakIdx ml)) * (1 - qmod ml nakSpan / nakSpan) * yearDays := by
    rw [table_unfold, List.getD_cons_zero]
    show b + DASHA_YEARS (ordAt (nakIdx ml)) * balance ml * yearDays - b = _
    rw [show balance ml = 1 - qmod ml nakSpan / nakSpan from rfl]
    ring
  refine ⟨by rw [table_unfold, List.getD_cons_zero], hdur, ?_, ?_⟩
  · intro h0
    rw [hdur, h0]
    norm_num
  · intro t ht1 ht9
    cases t with
    | zero => omega
    | succ m =>
      rw [table_unfold, List.getD_cons_succ]
      have harg : nakIdx ml + ((1 : Nat) : Int) + (m : Int)
          = nakIdx ml + ((m + 1 : Nat) : Int) := by push_cast; ring
      have hm := mdRows_getD_dur lang (nakIdx ml) b 8 1
        (b + DASHA_YEARS (ordAt (nakIdx ml)) * balance ml * yearDays) m (by omega)
      rw [harg] at hm
      exact hm

/-- C8, witness: at moon longitude 0 the fraction is zero, the first row is
the full first weight, and row 2 has its full weight. -/
theorem c8_witness :
    ((generate_mahadasha_table 0 0 "English").getD 0 rowNull).lord
      = trName "English" (ordAt (nakIdx 0)) ∧
    ((generate_mahadasha_table 0 0 "English").getD 0 rowNull).endDay
        - ((generate_mahadasha_table 0 0 "English").getD 0 rowNull).startDay
      = DASHA_YEARS (ordAt (nakIdx 0)) * yearDays ∧
    ((generate_mahadasha_table 0 0 "English").getD 2 rowNull).endDay
        - ((generate_mahadasha_table 0 0 "English").getD 2 rowNull).startDay
      = DASHA_YEARS (ordAt (nakIdx 0 + ((2 : Nat) : Int))) * yearDays :=
  ⟨(c8_theorem 0 0 "English").1,
   (c8_theorem 0 0 "English").2.2.1 qmod_zero,
   (c8_theorem 0 0 "English").2.2.2 2 (by decide) (by decide)⟩

/-- C9 (confirmed): a successful resolver run returns exactly two phase
records; the second is the "NEXT PHASE" record pairing the currently active
major lord with the next sub lord in cyclic order,
`DASHA_ORDER[(ad_idx + i + 1) mod 9]` — and when the active sub period is
the ninth (`i = 8`) that next sub lord wraps around to the current major
lord itself, not to the next major period's first sub period. -/
theorem c9_theorem (ml b now : ℚ) (pbm : List (String × Int)) (lang : String)
    (f : FoundPeriods) (hf : mdLoopOf ml b now = some f)
    (ps : List Phase) (act : ActivePd)
    (hr : generate_current_next_bhukti ml b now pbm lang = Except.ok (some (ps, act))) :
    ps.length = 2 ∧
    (ps.getD 1 phNull).ptype = (if lang = "Tamil" then "அடுத்த புக்தி" else "NEXT PHASE") ∧
    (ps.getD 1 phNull).phase
      = trName lang f.mdLord ++ " - " ++ trName lang (ordAt (f.adIdx + (f.adPos : Int) + 1)) ∧
    (f.adPos = 8 → ordAt (f.adIdx + (f.adPos : Int) + 1) = f.mdLord) := by
  have hfacts := mdLoopOf_spec ml b now f hf
  simp only [generate_current_next_bhukti, hf] at hr
  rcases ht1 : get_detailed_bhukti_analysis f.mdLord f.adLord pbm lang with e1 | t1
  · rw [ht1] at hr
    simp [Bind.bind, Except.bind] at hr
  · rw [ht1] at hr
    rcases ht2 : get_detailed_bhukti_analysis f.mdLord
        (ordAt (f.adIdx + (f.adPos : Int) + 1)) pbm lang with e2 | t2
    · rw [ht2] at hr
      simp [Bind.bind, Except.bind] at hr
    · rw [ht2] at hr
      simp only [Bind.bind, Except.bind, Except.ok.injEq, Option.some.injEq,
        Prod.mk.injEq] at hr
      obtain ⟨hps, hact⟩ := hr
      subst hps
      exact ⟨rfl, rfl, rfl, next_of_last f hfacts.ad_idx_eq hfacts.md_lord_mem⟩

/-- C9, witness: inside the ninth sub period of the first major period the
result still has two phase records, and the "NEXT PHASE" pairing wraps to
the current major lord ("Ketu - Ketu"). -/
theorem c9_witness :
    (resPair 0 0 (203079/80) [] "English").1.length = 2 ∧
    ((resPair 0 0 (203079/80) [] "English").1.getD 1 phNull).ptype
      = (if "English" = "Tamil" then "அடுத்த புக்தி" else "NEXT PHASE") ∧
    ((resPair 0 0 (203079/80) [] "English").1.getD 1 phNull).phase
      = trName "English" fLastSub.mdLord ++ " - "
        ++ trName "English" (ordAt (fLastSub.adIdx + (fLastSub.adPos : Int) + 1)) ∧
    ordAt (fLastSub.adIdx + (fLastSub.adPos : Int) + 1) = fLastSub.mdLord := by
  have h := c9_theorem 0 0 (203079/80) [] "English" fLastSub mdEval_lastSub
    (resPair 0 0 (203079/80) [] "English").1 (resPair 0 0 (203079/80) [] "English").2
    (gen_eq_resPair 0 0 (203079/80) [] "English" fLastSub mdEval_lastSub emptyMapValid)
  exact ⟨h.1, h.2.1, h.2.2.1, h.2.2.2 rfl⟩

/-- C10, counterexample: with the planet-house map sending Ketu to house 13
the resolver raises an uncaught `KeyError` from the `topics[...]` subscript
in `get_detailed_bhukti_analysis`, so it is not exception-free for every
planet-house map. -/
theorem c10_counterexample :
    isOkResult (generate_current_next_bhukti 0 0 1 [("Ketu", 13)] "English") = false := by
  have h13 : get_detailed_bhukti_analysis "Ketu" "Ketu" [("Ketu", (13 : Int))] "English"
      = Except.error "KeyError: 13" := rfl
  simp only [generate_current_next_bhukti, mdEval_one]
  rw [h13]
  rfl

/-- C10 (amended): for every moon longitude, birth instant and query
instant, and every planet-house map whose house values lie in `1..12` (the
domain of the topic tables), neither resolver raises: the point resolver
always returns normally, and a failed bracketing search surfaces only as
the `None` return value.  The timeline builder `generate_mahadasha_table`
is a total function in the model — every lookup in it defaults. -/
theorem c10_amended (ml b now : ℚ) (pbm : List (String × Int)) (lang : String)
    (hv : ∀ q hh, (q, hh) ∈ pbm → 1 ≤ hh ∧ hh ≤ 12) :
    isOkResult (generate_current_next_bhukti ml b now pbm lang) = true ∧
    (mdLoopOf ml b now = none →
      generate_current_next_bhukti ml b now pbm lang = Except.ok none) :=
  ⟨gen_isOk ml b now pbm lang hv, fun hn => gen_none ml b now pbm lang hn⟩

/-- C10, witness: no exception with a well-formed one-entry map. -/
theorem c10_witness :
    isOkResult (generate_current_next_bhukti 0 0 1 [("Sun", 5)] "English") = true :=
  (c10_amended 0 0 1 [("Sun", 5)] "English" sunMapValid).1
